import Mathlib

/-!
Verification development for the PDFXtract-Arena normalization and scoring
pipeline (src/pdfx_bench/schema.py, provenance.py, normalize.py, scoring.py).

Modelling conventions:
* Python floats are modelled as exact rationals (ℚ); the arithmetic identities
  below are statements about the exact formulas of the source.
* Pydantic model construction, which can raise ValidationError, is modelled by
  explicit `validate_*` functions returning `Except String _`; structures
  themselves are plain records (a record holding values that pydantic would
  reject models an object built while bypassing validation, which is exactly
  the situation in which the normalizer's exception handlers fire).
* Python dictionaries with string keys are modelled as association lists,
  `List (String × _)`, looked up with `List.lookup`.
* `normalize_confidence` in provenance.py mentions the enum members
  GOOGLE_DOCAI_OCR, GOOGLE_DOCAI_FORM, GOOGLE_DOCAI_LAYOUT, which the
  ExtractionMethod enum of schema.py does not define; evaluating that `elif`
  arm raises AttributeError, which the surrounding `except (ValueError,
  TypeError)` does not catch.  The embedding returns `Except.error` there.
* The quarantine list held by DataNormalizer is threaded explicitly: every
  stateful method takes the current entry list and returns the updated one.
* Quarantine timestamps (wall-clock time) are omitted from the model.
* scoring.py additionally computes regex-based cross-validation diagnostics
  (`_calculate_cross_validation_metrics`); `_calculate_overall_score` receives
  but never reads them, and no claim mentions them, so they are left out of
  the embedded score record.
-/

/-- ExtractionMethod enum from src/pdfx_bench/schema.py (lines 12-25).
These twelve members are the only ones the enum defines. -/
inductive ExtractionMethod where
  | PDFPLUMBER
  | CAMELOT_LATTICE
  | CAMELOT_STREAM
  | TABULA
  | POPPLER
  | ADOBE_EXTRACT
  | AWS_TEXTRACT
  | GOOGLE_DOCAI
  | AZURE_READ
  | AZURE_LAYOUT
  | TESSERACT_OCR
  | LLM_EXTRACTION
deriving DecidableEq

/-- BoundingBox model (schema.py): four rational coordinates. -/
structure BoundingBox where
  x0 : ℚ
  y0 : ℚ
  x1 : ℚ
  y1 : ℚ
deriving DecidableEq

/-- Pydantic validation of BoundingBox: the validators reject x1 ≤ x0 and
y1 ≤ y0. -/
def validate_bounding_box (x0 y0 x1 y1 : ℚ) : Except String BoundingBox :=
  if x1 ≤ x0 then Except.error "x1 must be greater than x0"
  else if y1 ≤ y0 then Except.error "y1 must be greater than y0"
  else Except.ok { x0 := x0, y0 := y0, x1 := x1, y1 := y1 }

/-- Provenance record (schema.py).  raw_data is opaque extractor data, never
interpreted downstream; it is modelled as an optional opaque string. -/
structure Provenance where
  method : ExtractionMethod
  page : Int
  bbox : Option BoundingBox
  confidence : Option ℚ
  raw_data : Option String
deriving DecidableEq

/-- TextBlock model (schema.py). -/
structure TextBlock where
  text : String
  provenance : Provenance
deriving DecidableEq

/-- TableCell model (schema.py). -/
structure TableCell where
  raw_text : String
  row_idx : Int
  col_idx : Int
  is_header : Bool
  provenance : Provenance
  parsed_number : Option ℚ
  parsed_date : Option String
deriving DecidableEq

/-- Table model (schema.py). -/
structure Table where
  cells : List TableCell
  table_id : String
  caption : Option String
  provenance : Provenance
deriving DecidableEq

/-- KeyValue model (schema.py). -/
structure KeyValue where
  key : String
  value : String
  provenance : Provenance
deriving DecidableEq

/-- Document model (schema.py): aggregate root.  extraction_metadata is a
free-form string map. -/
structure Document where
  id : String
  file_name : String
  page_count : Int
  text_blocks : List TextBlock
  tables : List Table
  key_values : List KeyValue
  extraction_metadata : List (String × String)
deriving DecidableEq

/-- ExtractionResult model (schema.py): a Document plus run-level facts. -/
structure ExtractionResult where
  document : Document
  method : ExtractionMethod
  success : Bool
  error_message : Option String
  processing_time : ℚ
  total_text_blocks : Nat
  total_tables : Nat
  total_cells : Nat
  empty_cells : Nat
  avg_confidence : Option ℚ
deriving DecidableEq

/-- Maximum of a list of integers, with the source's default of 0 for the
empty list (mirrors `max(xs) if xs else 0`). -/
def max_int_list : List Int → Int
  | [] => 0
  | x :: xs => xs.foldl max x

/-- Table.rows property (schema.py): `max(cell.row_idx, default=-1) + 1`. -/
def table_rows (t : Table) : Int :=
  (match t.cells.map (fun c => c.row_idx) with
   | [] => (-1 : Int)
   | x :: xs => xs.foldl max x) + 1

/-- Table.cols property (schema.py): `max(cell.col_idx, default=-1) + 1`. -/
def table_cols (t : Table) : Int :=
  (match t.cells.map (fun c => c.col_idx) with
   | [] => (-1 : Int)
   | x :: xs => xs.foldl max x) + 1

/-- Guarded dictionary access: the source only reads these keys after the
`all(key in bbox_dict ...)` membership test, so the default is never
reached. -/
def bbox_get (d : List (String × ℚ)) (k : String) : ℚ :=
  (d.lookup k).getD 0

/-- create_bbox_from_dict from src/pdfx_bench/provenance.py (lines 58-96).
Tries the three key shapes in order, guarded by `all(key in bbox_dict)`
membership tests; pydantic ValidationError raised by the BoundingBox
constructor is a ValueError and is caught, yielding None; an unrecognized
shape also yields None.  The function never raises. -/
def create_bbox_from_dict (d : List (String × ℚ)) : Option BoundingBox :=
  if (["x0", "y0", "x1", "y1"].all (fun k => (d.lookup k).isSome)) then
    (validate_bounding_box (bbox_get d "x0") (bbox_get d "y0")
      (bbox_get d "x1") (bbox_get d "y1")).toOption
  else if (["left", "top", "right", "bottom"].all (fun k => (d.lookup k).isSome)) then
    (validate_bounding_box (bbox_get d "left") (bbox_get d "top")
      (bbox_get d "right") (bbox_get d "bottom")).toOption
  else if (["x", "y", "width", "height"].all (fun k => (d.lookup k).isSome)) then
    (validate_bounding_box (bbox_get d "x") (bbox_get d "y")
      (bbox_get d "x" + bbox_get d "width")
      (bbox_get d "y" + bbox_get d "height")).toOption
  else none

/-- normalize_confidence from src/pdfx_bench/provenance.py (lines 99-145).
For AWS_TEXTRACT the 0-100 branch applies; for every other method the `elif`
arm evaluates `ExtractionMethod.GOOGLE_DOCAI_OCR`, a member schema.py does not
define, so Python raises AttributeError (not caught by the
`except (ValueError, TypeError)` handler); this is the `Except.error` case.
After the textract branch falls through (value outside [0, 100]) the generic
range checks at the end of the function run. -/
def normalize_confidence (confidence : Option ℚ) (method : ExtractionMethod) :
    Except String (Option ℚ) :=
  match confidence with
  | none => Except.ok none
  | some conf =>
    if method = ExtractionMethod.AWS_TEXTRACT then
      if 0 ≤ conf ∧ conf ≤ 100 then Except.ok (some (conf / 100))
      else
        if 0 ≤ conf ∧ conf ≤ 1 then Except.ok (some conf)
        else if 0 ≤ conf ∧ conf ≤ 100 then Except.ok (some (conf / 100))
        else Except.ok none
    else
      Except.error "AttributeError: GOOGLE_DOCAI_OCR is not a member of ExtractionMethod"

example : create_bbox_from_dict [("x0", 0), ("y0", 0), ("x1", 2), ("y1", 3)] =
    some { x0 := 0, y0 := 0, x1 := 2, y1 := 3 } := by decide

example : create_bbox_from_dict [("left", 1), ("top", 1), ("right", 4), ("bottom", 5)] =
    some { x0 := 1, y0 := 1, x1 := 4, y1 := 5 } := by decide

example : create_bbox_from_dict [("x", 1), ("y", 1), ("width", 2), ("height", 2)] =
    some { x0 := 1, y0 := 1, x1 := 3, y1 := 3 } := by
  simp [create_bbox_from_dict, validate_bounding_box, List.lookup, Except.toOption,
    bbox_get]
  norm_num

example : create_bbox_from_dict [("foo", 1)] = none := by decide

example : normalize_confidence (some 1) ExtractionMethod.AWS_TEXTRACT =
    Except.ok (some (1/100)) := by
  simp [normalize_confidence]

/-- Model of Python str.strip() on a character list: drop whitespace from
both ends. -/
def strip_chars (l : List Char) : List Char :=
  ((l.dropWhile Char.isWhitespace).reverse.dropWhile Char.isWhitespace).reverse

/-- Model of Python str.strip(). -/
def py_strip (s : String) : String :=
  String.mk (strip_chars s.toList)

/-- Model of Python str.lower(). -/
def py_lower (s : String) : String :=
  String.mk (s.toList.map Char.toLower)

/-- Model of Python str.split() with no argument: split on whitespace runs,
dropping empty fragments.  The accumulator holds the current word
reversed. -/
def words_aux : List Char → List Char → List (List Char)
  | [], cur => if cur.isEmpty then [] else [cur.reverse]
  | c :: cs, cur =>
    if c.isWhitespace then
      if cur.isEmpty then words_aux cs [] else cur.reverse :: words_aux cs []
    else words_aux cs (c :: cur)

/-- Join words with single spaces, at the character level. -/
def intercalate_space : List (List Char) → List Char
  | [] => []
  | [w] => w
  | w :: ws => w ++ ' ' :: intercalate_space ws

/-- DataNormalizer._clean_text from src/pdfx_bench/normalize.py (262-273):
collapse whitespace runs to single spaces, drop control characters other than
newline and tab, strip.  The leading emptiness test mirrors
`if not text: return ""`. -/
def clean_text (text : String) : String :=
  if text = "" then ""
  else
    let joined := intercalate_space (words_aux text.toList [])
    let filtered := joined.filter
      (fun c => 32 ≤ c.toNat || c = '\n' || c = '\t')
    String.mk (strip_chars filtered)

/-- Digits-to-value helper for the parsed_number model. -/
def nat_of_digits (l : List Char) : Nat :=
  l.foldl (fun a c => 10 * a + (c.toNat - 48)) 0

/-- Helper for the parsed_number model: up to n leading digits. -/
def take_digits_up_to : Nat → List Char → List Char × List Char
  | 0, cs => ([], cs)
  | _ + 1, [] => ([], [])
  | n + 1, c :: cs =>
    if c.isDigit then
      let (a, b) := take_digits_up_to n cs
      (c :: a, b)
    else ([], c :: cs)

/-- Helper for the parsed_number model: greedily consume groups of a comma
followed by exactly three digits, returning the digits without the commas
(the source strips commas before calling float). -/
def comma_groups : Nat → List Char → List Char × List Char
  | 0, cs => ([], cs)
  | fuel + 1, cs =>
    match cs with
    | ',' :: a :: b :: c :: rest =>
      if a.isDigit && b.isDigit && c.isDigit then
        let (g, r) := comma_groups fuel rest
        (a :: b :: c :: g, r)
      else ([], cs)
    | _ => ([], cs)

/-- Model of one attempted match of the parsed_number regex
of schema.py at the head of the character list.  The regex is
1-3 digits, then comma-separated 3-digit groups, then an optional
fraction, with an optional leading sign; since everything after the initial
digit run is optional, Python's leftmost backtracking search reduces to this
deterministic greedy scan. -/
def match_number_at (cs : List Char) : Option ℚ :=
  let signed : ℚ × List Char :=
    match cs with
    | '-' :: r => ((-1 : ℚ), r)
    | '+' :: r => ((1 : ℚ), r)
    | _ => ((1 : ℚ), cs)
  let (d1, r1) := take_digits_up_to 3 signed.2
  if d1.isEmpty then none
  else
    let (g, r2) := comma_groups r1.length r1
    let intDigits := d1 ++ g
    match r2 with
    | '.' :: r3 =>
      let fd := r3.takeWhile Char.isDigit
      if fd.isEmpty then some (signed.1 * nat_of_digits intDigits)
      else some (signed.1 *
        ((nat_of_digits intDigits : ℚ) + (nat_of_digits fd : ℚ) / (10 : ℚ) ^ fd.length))
    | _ => some (signed.1 * nat_of_digits intDigits)

/-- Leftmost regex search for the parsed_number model. -/
def search_number : List Char → Option ℚ
  | [] => none
  | c :: cs =>
    match match_number_at (c :: cs) with
    | some v => some v
    | none => search_number cs

/-- Pydantic parse_number validator of TableCell (schema.py 81-98), for the
case where no explicit parsed_number is supplied: strip dollar and percent
signs, search for the first number-shaped substring, parse it with commas
removed.  Total (never raises): the source catches ValueError and returns
None. -/
def auto_parse_number (raw_text : String) : Option ℚ :=
  if raw_text = "" then none
  else search_number ((raw_text.toList.filter (fun c => c ≠ '$' && c ≠ '%')))

/-- Pydantic validation/construction of a TableCell (schema.py 69-98): the
ge=0 bounds on row_idx and col_idx, and the parse_number derivation when
parsed_number is not given. -/
def validate_table_cell (raw_text : String) (row_idx col_idx : Int)
    (is_header : Bool) (provenance : Provenance)
    (parsed_number : Option ℚ) (parsed_date : Option String) :
    Except String TableCell :=
  if row_idx < 0 then Except.error "row_idx: ensure this value is greater than or equal to 0"
  else if col_idx < 0 then Except.error "col_idx: ensure this value is greater than or equal to 0"
  else Except.ok
    { raw_text := raw_text
      row_idx := row_idx
      col_idx := col_idx
      is_header := is_header
      provenance := provenance
      parsed_number :=
        match parsed_number with
        | some v => some v
        | none => auto_parse_number raw_text
      parsed_date := parsed_date }

/-- Pydantic validation of a TextBlock (schema.py 57-66): text must be
non-empty after stripping. -/
def validate_text_block (text : String) (provenance : Provenance) :
    Except String TextBlock :=
  if py_strip text = "" then Except.error "Text content cannot be empty"
  else Except.ok { text := text, provenance := provenance }

/-- Pydantic validation of a KeyValue (schema.py 126-136): key must be
non-empty after stripping; the value may be empty. -/
def validate_key_value (key value : String) (provenance : Provenance) :
    Except String KeyValue :=
  if py_strip key = "" then Except.error "Key cannot be empty"
  else Except.ok { key := key, value := value, provenance := provenance }

/-- The rejected fragment stored in a quarantine entry.  The source stores
item.dict(); the model stores the item itself, opaquely. -/
inductive QuarantineSource where
  | from_text_block (b : TextBlock)
  | from_table (t : Table)
  | from_key_value (kv : KeyValue)
deriving DecidableEq

/-- Page lookup performed by _quarantine_data:
`data.get('provenance', {}).get('page', 1)`. -/
def quarantine_source_page : QuarantineSource → Int
  | QuarantineSource.from_text_block b => b.provenance.page
  | QuarantineSource.from_table t => t.provenance.page
  | QuarantineSource.from_key_value kv => kv.provenance.page

/-- QuarantineEntry as built by DataNormalizer._quarantine_data
(normalize.py 299-317).  The wall-clock timestamp is omitted from the
model. -/
structure QuarantineEntry where
  original_data : QuarantineSource
  method : ExtractionMethod
  failure_reason : String
  page : Int
deriving DecidableEq

/-- DataNormalizer._quarantine_data (normalize.py 299-317): append one entry
to the instance quarantine list. -/
def quarantine_data (q : List QuarantineEntry) (data : QuarantineSource)
    (method : ExtractionMethod) (reason : String) : List QuarantineEntry :=
  q ++ [{ original_data := data
          method := method
          failure_reason := reason
          page := quarantine_source_page data }]

/-- DataNormalizer._normalize_text_block (normalize.py 142-167): clean the
text, drop silently when the cleaned text is blank, quarantine with the
exception message when construction raises. -/
def normalize_text_block (method : ExtractionMethod) (q : List QuarantineEntry)
    (text_block : TextBlock) : Option TextBlock × List QuarantineEntry :=
  let normalized_text := clean_text text_block.text
  if py_strip normalized_text = "" then (none, q)
  else
    match validate_text_block normalized_text text_block.provenance with
    | Except.ok b => (some b, q)
    | Except.error e =>
      (none, quarantine_data q (QuarantineSource.from_text_block text_block) method e)

/-- DataNormalizer._normalize_table_cell (normalize.py 207-232): clean the
cell text and rebuild the cell.  Empty cleaned text is kept.  When
construction raises, the except branch only logs and returns None: it does
NOT call _quarantine_data, so the failed cell leaves no quarantine entry. -/
def normalize_table_cell (cell : TableCell) : Option TableCell :=
  match validate_table_cell (clean_text cell.raw_text) cell.row_idx cell.col_idx
      cell.is_header cell.provenance cell.parsed_number cell.parsed_date with
  | Except.ok c => some c
  | Except.error _ => none

/-- DataNormalizer._validate_table_structure (normalize.py 275-297): with
expected_cells = (max_row+1)*(max_col+1), the table fails validation when
actual_cells < expected_cells * 0.5 (strict comparison). -/
def validate_table_structure (cells : List TableCell) : Bool :=
  if cells.isEmpty then false
  else
    let max_row := max_int_list (cells.map (fun c => c.row_idx))
    let max_col := max_int_list (cells.map (fun c => c.col_idx))
    let expected_cells : Int := (max_row + 1) * (max_col + 1)
    if (cells.length : ℚ) < (expected_cells : ℚ) * (1/2) then false else true

/-- DataNormalizer._normalize_table (normalize.py 169-205): normalize each
cell, drop the table silently if no cell survives, quarantine it with reason
"Invalid table structure" if the surviving cells fail the sparsity check. -/
def normalize_table (method : ExtractionMethod) (q : List QuarantineEntry)
    (table : Table) : Option Table × List QuarantineEntry :=
  let normalized_cells := table.cells.filterMap normalize_table_cell
  if normalized_cells.isEmpty then (none, q)
  else if validate_table_structure normalized_cells then
    (some { cells := normalized_cells
            table_id := table.table_id
            caption := table.caption
            provenance := table.provenance }, q)
  else
    (none, quarantine_data q (QuarantineSource.from_table table) method
      "Invalid table structure")

/-- DataNormalizer._normalize_key_value (normalize.py 234-260): clean key and
value, drop silently when the cleaned key is blank, quarantine with the
exception message when construction raises. -/
def normalize_key_value (method : ExtractionMethod) (q : List QuarantineEntry)
    (kv : KeyValue) : Option KeyValue × List QuarantineEntry :=
  let normalized_key := clean_text kv.key
  let normalized_value := clean_text kv.value
  if py_strip normalized_key = "" then (none, q)
  else
    match validate_key_value normalized_key normalized_value kv.provenance with
    | Except.ok r => (some r, q)
    | Except.error e =>
      (none, quarantine_data q (QuarantineSource.from_key_value kv) method e)

/-- Normalization loop over a list of items, threading the quarantine list
and keeping the successful results in order. -/
def normalize_list {α β : Type}
    (f : List QuarantineEntry → α → Option β × List QuarantineEntry) :
    List QuarantineEntry → List α → List β × List QuarantineEntry
  | q, [] => ([], q)
  | q, x :: xs =>
    let step := f q x
    let rest := normalize_list f step.2 xs
    (match step.1 with
     | some b => b :: rest.1
     | none => rest.1, rest.2)

/-- DataNormalizer._apply_normalization_rules (normalize.py 101-140):
normalize text blocks, tables and key-values in that order; identity fields
and extraction_metadata are carried over unchanged. -/
def apply_normalization_rules (method : ExtractionMethod)
    (q : List QuarantineEntry) (document : Document) :
    Document × List QuarantineEntry :=
  let tb := normalize_list (normalize_text_block method) q document.text_blocks
  let tbl := normalize_list (normalize_table method) tb.2 document.tables
  let kv := normalize_list (normalize_key_value method) tbl.2 document.key_values
  ({ id := document.id
     file_name := document.file_name
     page_count := document.page_count
     text_blocks := tb.1
     tables := tbl.1
     key_values := kv.1
     extraction_metadata := document.extraction_metadata }, kv.2)

/-- The empty Document built by normalize_extraction_result for failed
extractions (normalize.py 46-51): pydantic defaults give empty content
lists and empty metadata. -/
def unknown_document : Document :=
  { id := "unknown"
    file_name := "unknown"
    page_count := 1
    text_blocks := []
    tables := []
    key_values := []
    extraction_metadata := [] }

/-- Confidence values of one table in source traversal order: the table-level
provenance first, then the cells. -/
def table_confidences (t : Table) : List ℚ :=
  (match t.provenance.confidence with
   | some c => [c]
   | none => []) ++ t.cells.filterMap (fun c => c.provenance.confidence)

/-- Confidence collection shared by normalize.py (67-84) and scoring.py
(238-257): all tables (table provenance then cells), then text blocks, then
key-values. -/
def document_confidences (document : Document) : List ℚ :=
  (document.tables.map table_confidences).flatten
    ++ document.text_blocks.filterMap (fun b => b.provenance.confidence)
    ++ document.key_values.filterMap (fun kv => kv.provenance.confidence)

/-- DataNormalizer.normalize_extraction_result (normalize.py 23-99).
raw_result is `some d` when the adapter returned a Document and `none`
otherwise; on failure (or a non-Document raw result) a fresh unknown
Document is used and the adapter's Document is discarded. -/
def normalize_extraction_result (q : List QuarantineEntry)
    (raw_result : Option Document) (method : ExtractionMethod)
    (processing_time : ℚ) (success : Bool) (error_message : Option String) :
    ExtractionResult × List QuarantineEntry :=
  let docq : Document × List QuarantineEntry :=
    match success, raw_result with
    | true, some d => apply_normalization_rules method q d
    | true, none => (unknown_document, q)
    | false, _ => (unknown_document, q)
  let document := docq.1
  let confidences := document_confidences document
  ({ document := document
     method := method
     success := success
     error_message := error_message
     processing_time := processing_time
     total_text_blocks := document.text_blocks.length
     total_tables := document.tables.length
     total_cells := (document.tables.map (fun t => t.cells.length)).sum
     empty_cells := ((document.tables.map (fun t =>
       (t.cells.filter (fun c => py_strip c.raw_text = "")).length)).sum)
     avg_confidence :=
       if confidences.isEmpty then none
       else some (confidences.sum / (confidences.length : ℚ)) },
   docq.2)

/-- DataNormalizer.get_quarantine_entries (normalize.py 319-321): returns a
copy of the entry list; as a value it equals the current list (the copying
is what makes this pure model faithful: mutating the returned Python list
cannot change the instance state). -/
def get_quarantine_entries (q : List QuarantineEntry) : List QuarantineEntry := q

/-- DataNormalizer.clear_quarantine (normalize.py 323-325). -/
def clear_quarantine (_q : List QuarantineEntry) : List QuarantineEntry := []

/-- Leading sign removal for the Python float() literal model. -/
def drop_sign : List Char → List Char
  | '+' :: cs => cs
  | '-' :: cs => cs
  | cs => cs

/-- Exponent-part acceptance for the Python float() literal model (input
already lowercased). -/
def exp_part_ok (cs : List Char) : Bool :=
  match cs with
  | [] => true
  | 'e' :: rest =>
    let rest2 := drop_sign rest
    let d := rest2.takeWhile Char.isDigit
    !d.isEmpty && (rest2.dropWhile Char.isDigit).isEmpty
  | _ => false

/-- Mantissa-and-exponent acceptance for the Python float() literal model. -/
def py_float_body (cs : List Char) : Bool :=
  let d1 := cs.takeWhile Char.isDigit
  let r1 := cs.dropWhile Char.isDigit
  match r1 with
  | '.' :: r2 =>
    let d2 := r2.takeWhile Char.isDigit
    let r3 := r2.dropWhile Char.isDigit
    (!d1.isEmpty || !d2.isEmpty) && exp_part_ok r3
  | _ => !d1.isEmpty && exp_part_ok r1

/-- Model of whether Python float() accepts a string: optional sign, then a
decimal literal with optional fraction and exponent, or inf/infinity/nan.
Models the stdlib float parser used by QualityScorer._is_numeric_text. -/
def is_py_float (s : String) : Bool :=
  let cs := drop_sign (s.toList.map Char.toLower)
  cs == "inf".toList || cs == "infinity".toList || cs == "nan".toList ||
    py_float_body cs

/-- QualityScorer._is_numeric_text (scoring.py 322-334): strip the text,
remove currency symbols, commas, whitespace and percent signs, and test with
float(). -/
def is_numeric_text (text : String) : Bool :=
  if py_strip text = "" then false
  else
    is_py_float (String.mk ((py_strip text).toList.filter
      (fun c => !(c = '$' || c = '€' || c = '£' || c = '¥' || c = ',' ||
                  c = '%' || c.isWhitespace))))

/-- QualityScorer._is_readable_text (scoring.py 336-346): at least three
characters after stripping and letters at least half of all characters. -/
def is_readable_text (text : String) : Bool :=
  if text = "" || (py_strip text).length < 3 then false
  else
    decide (((text.toList.filter Char.isAlpha).length : ℚ) / (text.length : ℚ) ≥ 1/2)

/-- Dictionary returned by QualityScorer._calculate_basic_metrics. -/
structure BasicMetrics where
  success : Bool
  total_text_blocks : Nat
  total_tables : Nat
  total_cells : Nat
  empty_cells : Nat
  empty_cell_rate : ℚ
  avg_confidence : Option ℚ
deriving DecidableEq

/-- QualityScorer._calculate_basic_metrics (scoring.py 72-83). -/
def calculate_basic_metrics (result : ExtractionResult) : BasicMetrics :=
  { success := result.success
    total_text_blocks := result.total_text_blocks
    total_tables := result.total_tables
    total_cells := result.total_cells
    empty_cells := result.empty_cells
    empty_cell_rate :=
      if result.total_cells > 0 then
        (result.empty_cells : ℚ) / (max result.total_cells 1 : ℚ)
      else 0
    avg_confidence := result.avg_confidence }

/-- Dictionary returned by QualityScorer._calculate_table_metrics. -/
structure TableMetrics where
  table_count : Nat
  avg_rows_per_table : ℚ
  avg_cols_per_table : ℚ
  header_detection_rate : ℚ
  numeric_cell_parse_rate : ℚ
  duplicate_cell_rate : ℚ
  table_completeness_score : ℚ
  empty_cell_rate : ℚ
deriving DecidableEq

/-- QualityScorer._calculate_table_metrics (scoring.py 85-143).  Tables with
an empty cell list are skipped by the accumulation loop but still counted in
table_count. -/
def calculate_table_metrics (tables : List Table) : TableMetrics :=
  if tables.isEmpty then
    { table_count := 0
      avg_rows_per_table := 0
      avg_cols_per_table := 0
      header_detection_rate := 0
      numeric_cell_parse_rate := 0
      duplicate_cell_rate := 0
      table_completeness_score := 0
      empty_cell_rate := 0 }
  else
    let with_cells := tables.filter (fun t => !t.cells.isEmpty)
    let total_rows : Int := (with_cells.map table_rows).sum
    let total_cols : Int := (with_cells.map table_cols).sum
    let all_cells := (with_cells.map (fun t => t.cells)).flatten
    let all_cell_texts := all_cells.map (fun c => py_lower (py_strip c.raw_text))
    let total_cells := all_cells.length
    let header_cells := (all_cells.filter (fun c => c.is_header)).length
    let numeric_cells := (all_cells.filter (fun c => is_numeric_text c.raw_text)).length
    let parsed_numeric_cells := (all_cells.filter
      (fun c => is_numeric_text c.raw_text && c.parsed_number.isSome)).length
    let unique_texts := all_cell_texts.dedup
    let duplicate_rate : ℚ :=
      1 - (unique_texts.length : ℚ) / (max all_cell_texts.length 1 : ℚ)
    let non_empty_cells := (all_cell_texts.filter (fun t => t ≠ "")).length
    let completeness_score : ℚ := (non_empty_cells : ℚ) / (max total_cells 1 : ℚ)
    { table_count := tables.length
      avg_rows_per_table := (total_rows : ℚ) / (tables.length : ℚ)
      avg_cols_per_table := (total_cols : ℚ) / (tables.length : ℚ)
      header_detection_rate := (header_cells : ℚ) / (max total_cells 1 : ℚ)
      numeric_cell_parse_rate := (parsed_numeric_cells : ℚ) / (max numeric_cells 1 : ℚ)
      duplicate_cell_rate := duplicate_rate
      table_completeness_score := completeness_score
      empty_cell_rate := 1 - completeness_score }

/-- Dictionary returned by QualityScorer._calculate_text_metrics. -/
structure TextMetrics where
  text_block_count : Nat
  avg_text_length : ℚ
  total_characters : Nat
  readable_text_rate : ℚ
deriving DecidableEq

/-- QualityScorer._calculate_text_metrics (scoring.py 145-171). -/
def calculate_text_metrics (text_blocks : List TextBlock) : TextMetrics :=
  if text_blocks.isEmpty then
    { text_block_count := 0
      avg_text_length := 0
      total_characters := 0
      readable_text_rate := 0 }
  else
    let total_chars : Nat := (text_blocks.map (fun b => b.text.length)).sum
    let readable_blocks :=
      (text_blocks.filter (fun b => is_readable_text b.text)).length
    { text_block_count := text_blocks.length
      avg_text_length := (total_chars : ℚ) / (text_blocks.length : ℚ)
      total_characters := total_chars
      readable_text_rate := (readable_blocks : ℚ) / (text_blocks.length : ℚ) }

/-- Dictionary returned by QualityScorer._calculate_confidence_metrics. -/
structure ConfidenceMetrics where
  has_confidence_scores : Bool
  avg_confidence : Option ℚ
  min_confidence : Option ℚ
  max_confidence : Option ℚ
  low_confidence_rate : ℚ
deriving DecidableEq

/-- QualityScorer._calculate_confidence_metrics (scoring.py 238-278): collect
every confidence in the document (same traversal as document_confidences). -/
def calculate_confidence_metrics (result : ExtractionResult) : ConfidenceMetrics :=
  match document_confidences result.document with
  | [] =>
    { has_confidence_scores := false
      avg_confidence := none
      min_confidence := none
      max_confidence := none
      low_confidence_rate := 0 }
  | c :: cs =>
    { has_confidence_scores := true
      avg_confidence := some ((c :: cs).sum / ((c :: cs).length : ℚ))
      min_confidence := some (cs.foldl min c)
      max_confidence := some (cs.foldl max c)
      low_confidence_rate :=
        (((c :: cs).filter (fun x => decide (x < 4/5))).length : ℚ)
          / ((c :: cs).length : ℚ) }

/-- QualityScorer._calculate_overall_score (scoring.py 280-320).  Note that
every `weight_sum +=` statement in the source sits OUTSIDE the preceding
`if`, so weight_sum is always 0.3 + 0.4 + 0.2 + 0.1 = 1.0; the `cross_val`
parameter of the source is never read and is omitted here. -/
def calculate_overall_score (basic : BasicMetrics) (table : TableMetrics)
    (text : TextMetrics) (confidence : ConfidenceMetrics) : ℚ :=
  let score0 : ℚ := 0
  let weight_sum0 : ℚ := 0
  let score1 := if basic.success then score0 + 3/10 else score0
  let weight_sum1 := weight_sum0 + 3/10
  let table_score : ℚ :=
    (1 - table.empty_cell_rate) * (3/10) +
    table.numeric_cell_parse_rate * (1/5) +
    table.table_completeness_score * (3/10) +
    (1 - table.duplicate_cell_rate) * (1/5)
  let score2 := if table.table_count > 0 then score1 + table_score * (2/5) else score1
  let weight_sum2 := weight_sum1 + 2/5
  let score3 :=
    if text.text_block_count > 0 then score2 + text.readable_text_rate * (1/5)
    else score2
  let weight_sum3 := weight_sum2 + 1/5
  let conf_score : ℚ :=
    match confidence.avg_confidence with
    | some a => if a = 0 then 1/2 else a
    | none => 1/2
  let score4 :=
    if confidence.has_confidence_scores then score3 + conf_score * (1/10) else score3
  let weight_sum4 := weight_sum3 + 1/10
  if weight_sum4 > 0 then score4 / weight_sum4 else 0

/-- Dictionary returned by QualityScorer.score_extraction_result; the
regex-based cross_validation diagnostics of the source are omitted (they are
never read by the overall score or the comparator). -/
structure ScoreData where
  method : ExtractionMethod
  overall_score : ℚ
  basic_metrics : BasicMetrics
  table_metrics : TableMetrics
  text_metrics : TextMetrics
  confidence_metrics : ConfidenceMetrics
  processing_time : ℚ
deriving DecidableEq

/-- QualityScorer.score_extraction_result (scoring.py 27-70). -/
def score_extraction_result (result : ExtractionResult) : ScoreData :=
  let basic := calculate_basic_metrics result
  let table := calculate_table_metrics result.document.tables
  let text := calculate_text_metrics result.document.text_blocks
  let confidence := calculate_confidence_metrics result
  { method := result.method
    overall_score := calculate_overall_score basic table text confidence
    basic_metrics := basic
    table_metrics := table
    text_metrics := text
    confidence_metrics := confidence
    processing_time := result.processing_time }

/-- One element of the scored_results list of compare_extraction_results. -/
structure ScoredResult where
  method : ExtractionMethod
  scores : ScoreData
  result : ExtractionResult
deriving DecidableEq

/-- Construction of one scored_results element (scoring.py 396-402). -/
def make_scored (result : ExtractionResult) : ScoredResult :=
  { method := result.method
    scores := score_extraction_result result
    result := result }

/-- Stable insertion step for the descending sort: a new element goes after
every already-placed element whose key is at least its own, which is exactly
the stable behavior of Python list.sort with reverse=True. -/
def insert_desc {α β : Type} [LinearOrder β] (key : α → β) (x : α) :
    List α → List α
  | [] => [x]
  | y :: ys => if key x ≤ key y then y :: insert_desc key x ys else x :: y :: ys

/-- Model of Python list.sort(key=..., reverse=True): a stable descending
sort, built by inserting the elements in input order. -/
def py_sort_desc {α β : Type} [LinearOrder β] (key : α → β) (l : List α) :
    List α :=
  l.foldl (fun acc x => insert_desc key x acc) []

/-- Model of Python max(iterable, key=...): the first element attaining the
maximal key, scanning left to right from the initial element. -/
def py_max {α β : Type} [LinearOrder β] (key : α → β) : α → List α → α
  | m, [] => m
  | m, x :: xs => py_max key (if key m < key x then x else m) xs

/-- Comparison dictionary returned by compare_extraction_results for a
non-empty batch; the detailed_scores map is omitted (it repeats the ScoreData
already modelled).  The empty batch returns an empty dict, modelled as
`none`. -/
structure CompareOutput where
  total_methods : Nat
  best_overall : ExtractionMethod
  best_tables : ExtractionMethod
  best_text : ExtractionMethod
  method_rankings : List ExtractionMethod
deriving DecidableEq

/-- compare_extraction_results (scoring.py 379-427): score every result,
sort descending by overall score (stable), then pick best_overall as the top
of the ranking and best_tables/best_text with max() BY KEY OVER THE SORTED
LIST, so ties are resolved by ranking position, not input position. -/
def compare_extraction_results (results : List ExtractionResult) :
    Option CompareOutput :=
  match py_sort_desc (fun sr => sr.scores.overall_score) (results.map make_scored) with
  | [] => none
  | top :: rest =>
    some { total_methods := results.length
           best_overall := top.method
           best_tables :=
             (py_max (fun sr => sr.scores.table_metrics.table_count) top rest).method
           best_text :=
             (py_max (fun sr => sr.scores.text_metrics.text_block_count) top rest).method
           method_rankings := (top :: rest).map (fun sr => sr.method) }

/-- Expected cell count of the sparsity check, computed from a cell list:
(max_row + 1) * (max_col + 1) with max defaulting to 0. -/
def expected_cells_of (cells : List TableCell) : Int :=
  (max_int_list (cells.map (fun c => c.row_idx)) + 1) *
    (max_int_list (cells.map (fun c => c.col_idx)) + 1)

/-- Modelled from the amended C1 claim wording: the overall score is the
weighted sum of the applicable component scores divided by the CONSTANT
total weight 0.3 + 0.4 + 0.2 + 0.1 = 1.0 (every weight enters the
denominator whether or not its component applied). -/
def spec_fixed_denominator_overall (basic : BasicMetrics) (table : TableMetrics)
    (text : TextMetrics) (confidence : ConfidenceMetrics) : ℚ :=
  ((if basic.success then (3 : ℚ)/10 else 0)
    + (if table.table_count > 0 then
        ((1 - table.empty_cell_rate) * (3/10) +
         table.numeric_cell_parse_rate * (1/5) +
         table.table_completeness_score * (3/10) +
         (1 - table.duplicate_cell_rate) * (1/5)) * (2/5)
      else 0)
    + (if text.text_block_count > 0 then text.readable_text_rate * (1/5) else 0)
    + (if confidence.has_confidence_scores then
        (match confidence.avg_confidence with
         | some a => if a = 0 then (1 : ℚ)/2 else a
         | none => (1 : ℚ)/2) * (1/10)
      else 0))
  / ((3 : ℚ)/10 + 2/5 + 1/5 + 1/10)

/-- Provenance with no bbox and no confidence. -/
def prov_plain (m : ExtractionMethod) : Provenance :=
  { method := m, page := 1, bbox := none, confidence := none, raw_data := none }

/-- Provenance carrying a confidence score. -/
def prov_conf (m : ExtractionMethod) (c : ℚ) : Provenance :=
  { method := m, page := 1, bbox := none, confidence := some c, raw_data := none }

/-- The §8 empty-extraction scenario: a successful result whose document has
no tables, no text blocks, no key-values and no confidence scores. -/
def empty_success_result : ExtractionResult :=
  { document :=
      { id := "doc-empty", file_name := "empty.pdf", page_count := 1,
        text_blocks := [], tables := [], key_values := [],
        extraction_metadata := [] }
    method := ExtractionMethod.PDFPLUMBER
    success := true
    error_message := none
    processing_time := 0
    total_text_blocks := 0
    total_tables := 0
    total_cells := 0
    empty_cells := 0
    avg_confidence := none }

/-- One cell of the §8 perfect-extraction table, confidence 0.95. -/
def perfect_cell (r c : Int) (txt : String) (v : ℚ) : TableCell :=
  { raw_text := txt, row_idx := r, col_idx := c, is_header := false,
    provenance := prov_conf ExtractionMethod.PDFPLUMBER (19/20),
    parsed_number := some v, parsed_date := none }

/-- The §8 perfect-extraction table: 2 by 2, all cells non-empty, pairwise
distinct, numeric and parsed, confidence 0.95 everywhere. -/
def perfect_table : Table :=
  { cells := [perfect_cell 0 0 "1" 1, perfect_cell 0 1 "2" 2,
              perfect_cell 1 0 "3" 3, perfect_cell 1 1 "4" 4]
    table_id := "t-perfect"
    caption := none
    provenance := prov_conf ExtractionMethod.PDFPLUMBER (19/20) }

/-- The §8 perfect-extraction result. -/
def perfect_result : ExtractionResult :=
  { document :=
      { id := "doc-perfect", file_name := "perfect.pdf", page_count := 1,
        text_blocks := [{ text := "Hello world",
                          provenance := prov_conf ExtractionMethod.PDFPLUMBER (19/20) }],
        tables := [perfect_table], key_values := [],
        extraction_metadata := [] }
    method := ExtractionMethod.PDFPLUMBER
    success := true
    error_message := none
    processing_time := 1
    total_text_blocks := 1
    total_tables := 1
    total_cells := 4
    empty_cells := 0
    avg_confidence := some (19/20) }

/-- A one-cell table scoring a full table component: non-empty, numeric,
parsed, no duplicates, no confidence. -/
def one_cell_table : Table :=
  { cells := [{ raw_text := "5", row_idx := 0, col_idx := 0, is_header := false,
                provenance := prov_plain ExtractionMethod.PDFPLUMBER,
                parsed_number := some 5, parsed_date := none }]
    table_id := "t1"
    caption := none
    provenance := prov_plain ExtractionMethod.PDFPLUMBER }

/-- A readable text block with no confidence. -/
def hello_text_block : TextBlock :=
  { text := "Hello world", provenance := prov_plain ExtractionMethod.PDFPLUMBER }

/-- Comparator scenario, method A: success and a perfect one-cell table,
no text, giving overall score 0.3 + 0.4 = 0.7. -/
def result_a7 : ExtractionResult :=
  { document :=
      { id := "d7", file_name := "d7.pdf", page_count := 1,
        text_blocks := [], tables := [one_cell_table], key_values := [],
        extraction_metadata := [] }
    method := ExtractionMethod.PDFPLUMBER
    success := true
    error_message := none
    processing_time := 0
    total_text_blocks := 0
    total_tables := 1
    total_cells := 1
    empty_cells := 0
    avg_confidence := none }

/-- Comparator scenario, method B: like A plus a readable text block,
giving overall score 0.3 + 0.4 + 0.2 = 0.9. -/
def result_b7 : ExtractionResult :=
  { document :=
      { id := "d7", file_name := "d7.pdf", page_count := 1,
        text_blocks := [hello_text_block], tables := [one_cell_table],
        key_values := [], extraction_metadata := [] }
    method := ExtractionMethod.CAMELOT_LATTICE
    success := true
    error_message := none
    processing_time := 0
    total_text_blocks := 1
    total_tables := 1
    total_cells := 1
    empty_cells := 0
    avg_confidence := none }

/-- Comparator scenario, method C: same document as B under a different
method, also scoring 0.9. -/
def result_c7 : ExtractionResult :=
  { document :=
      { id := "d7", file_name := "d7.pdf", page_count := 1,
        text_blocks := [hello_text_block], tables := [one_cell_table],
        key_values := [], extraction_metadata := [] }
    method := ExtractionMethod.CAMELOT_STREAM
    success := true
    error_message := none
    processing_time := 0
    total_text_blocks := 1
    total_tables := 1
    total_cells := 1
    empty_cells := 0
    avg_confidence := none }

/-- Expected comparison output for the batch [result_a7, result_b7,
result_c7]. -/
def batch7_output : CompareOutput :=
  { total_methods := 3
    best_overall := ExtractionMethod.CAMELOT_LATTICE
    best_tables := ExtractionMethod.CAMELOT_LATTICE
    best_text := ExtractionMethod.CAMELOT_LATTICE
    method_rankings := [ExtractionMethod.CAMELOT_LATTICE,
                        ExtractionMethod.CAMELOT_STREAM,
                        ExtractionMethod.PDFPLUMBER] }

/-- Tie-break scenario for best_tables, first in input order: one table but
success=False, overall score 0.4. -/
def result_a5 : ExtractionResult :=
  { document :=
      { id := "d5", file_name := "d5.pdf", page_count := 1,
        text_blocks := [], tables := [one_cell_table], key_values := [],
        extraction_metadata := [] }
    method := ExtractionMethod.PDFPLUMBER
    success := false
    error_message := some "failed"
    processing_time := 0
    total_text_blocks := 0
    total_tables := 1
    total_cells := 1
    empty_cells := 0
    avg_confidence := none }

/-- Tie-break scenario for best_tables, second in input order: the same
table count but success=True, overall score 0.7. -/
def result_b5 : ExtractionResult :=
  { document :=
      { id := "d5", file_name := "d5.pdf", page_count := 1,
        text_blocks := [], tables := [one_cell_table], key_values := [],
        extraction_metadata := [] }
    method := ExtractionMethod.TABULA
    success := true
    error_message := none
    processing_time := 0
    total_text_blocks := 0
    total_tables := 1
    total_cells := 1
    empty_cells := 0
    avg_confidence := none }

/-- Expected comparison output for the batch [result_a5, result_b5]. -/
def batch5_output : CompareOutput :=
  { total_methods := 2
    best_overall := ExtractionMethod.TABULA
    best_tables := ExtractionMethod.TABULA
    best_text := ExtractionMethod.TABULA
    method_rankings := [ExtractionMethod.TABULA, ExtractionMethod.PDFPLUMBER] }

/-- A well-formed cell whose conversion succeeds. -/
def good_cell : TableCell :=
  { raw_text := "7", row_idx := 0, col_idx := 0, is_header := false,
    provenance := prov_plain ExtractionMethod.PDFPLUMBER,
    parsed_number := some 7, parsed_date := none }

/-- A cell whose conversion throws: its row index violates the pydantic
ge=0 bound, so rebuilding it in _normalize_table_cell raises
ValidationError.  Such a cell models data that bypassed validation (for
example built with construct() or handed over by a buggy adapter). -/
def bad_cell : TableCell :=
  { raw_text := "x", row_idx := -1, col_idx := 0, is_header := false,
    provenance := prov_plain ExtractionMethod.PDFPLUMBER,
    parsed_number := some 1, parsed_date := none }

/-- A table holding one convertible cell and one cell whose conversion
throws. -/
def mixed_cells_table : Table :=
  { cells := [good_cell, bad_cell]
    table_id := "t-mixed"
    caption := none
    provenance := prov_plain ExtractionMethod.PDFPLUMBER }

/-- One populated grid cell for the sparsity scenarios. -/
def grid_cell (r c : Int) : TableCell :=
  { raw_text := "9", row_idx := r, col_idx := c, is_header := false,
    provenance := prov_plain ExtractionMethod.PDFPLUMBER,
    parsed_number := some 9, parsed_date := none }

/-- The §8 boundary table: max_row = max_col = 3 (16 expected cells) and
exactly 8 populated cells. -/
def boundary_table : Table :=
  { cells := [grid_cell 0 0, grid_cell 0 3, grid_cell 1 0, grid_cell 1 3,
              grid_cell 2 0, grid_cell 2 3, grid_cell 3 0, grid_cell 3 3]
    table_id := "t-boundary"
    caption := none
    provenance := prov_plain ExtractionMethod.PDFPLUMBER }

/-- A clearly sparse table: 2 populated cells of 16 expected. -/
def sparse_table : Table :=
  { cells := [grid_cell 0 0, grid_cell 3 3]
    table_id := "t-sparse"
    caption := none
    provenance := prov_plain ExtractionMethod.PDFPLUMBER }

/-- A document with non-trivial content, identity fields and error metadata,
used to show that failed extractions discard the adapter document. -/
def rich_document : Document :=
  { id := "rich", file_name := "rich.pdf", page_count := 2,
    text_blocks := [hello_text_block], tables := [one_cell_table],
    key_values := [], extraction_metadata := [("error", "boom")] }

/-! ### Helper lemmas -/

theorem rat_half_lt_iff (n : Nat) (e : Int) :
    ((n : ℚ) < (e : ℚ) * (1/2)) ↔ 2 * (n : Int) < e := by
  constructor
  · intro h
    have h2 : (2 * (n : ℚ)) < (e : ℚ) := by linarith
    exact_mod_cast h2
  · intro h
    have h2 : ((2 * (n : Int) : Int) : ℚ) < (e : ℚ) := by exact_mod_cast h
    push_cast at h2
    linarith

/-- The sparsity check in integer form: a non-empty cell list passes exactly
when expected_cells ≤ 2 * actual_cells. -/
theorem validate_table_structure_eq_int (cells : List TableCell) :
    validate_table_structure cells =
      (!cells.isEmpty &&
        decide (expected_cells_of cells ≤ 2 * (cells.length : Int))) := by
  unfold validate_table_structure expected_cells_of
  cases h : cells.isEmpty
  · simp only [h, Bool.not_false, Bool.true_and]
    by_cases hlt : ((cells.length : ℚ) <
        (((max_int_list (cells.map (fun c => c.row_idx)) + 1) *
          (max_int_list (cells.map (fun c => c.col_idx)) + 1) : Int) : ℚ) * (1/2))
    · rw [if_neg (by simp [h]), if_pos hlt]
      have h2 := (rat_half_lt_iff cells.length _).mp hlt
      have h3 : ¬((max_int_list (cells.map (fun c => c.row_idx)) + 1) *
          (max_int_list (cells.map (fun c => c.col_idx)) + 1) ≤
            2 * (cells.length : Int)) := by omega
      rw [decide_eq_false h3]
    · rw [if_neg (by simp [h]), if_neg hlt]
      have h2 : ¬(2 * (cells.length : Int) <
          (max_int_list (cells.map (fun c => c.row_idx)) + 1) *
          (max_int_list (cells.map (fun c => c.col_idx)) + 1)) := by
        intro hcon
        exact hlt ((rat_half_lt_iff cells.length _).mpr hcon)
      have h3 : (max_int_list (cells.map (fun c => c.row_idx)) + 1) *
          (max_int_list (cells.map (fun c => c.col_idx)) + 1) ≤
            2 * (cells.length : Int) := by omega
      rw [decide_eq_true h3]
  · simp [h]

/-- Closed form of _normalize_table_cell: conversion fails exactly on a
negative row or column index, and otherwise rebuilds the cell with cleaned
text and unchanged indices. -/
theorem normalize_table_cell_eq (c : TableCell) :
    normalize_table_cell c =
      (if c.row_idx < 0 then none
       else if c.col_idx < 0 then none
       else some
        { raw_text := clean_text c.raw_text
          row_idx := c.row_idx
          col_idx := c.col_idx
          is_header := c.is_header
          provenance := c.provenance
          parsed_number :=
            match c.parsed_number with
            | some v => some v
            | none => auto_parse_number (clean_text c.raw_text)
          parsed_date := c.parsed_date }) := by
  unfold normalize_table_cell validate_table_cell
  split_ifs <;> rfl

/-- Indices survive cell normalization. -/
theorem normalize_table_cell_indices (c c' : TableCell)
    (h : normalize_table_cell c = some c') :
    c'.row_idx = c.row_idx ∧ c'.col_idx = c.col_idx := by
  rw [normalize_table_cell_eq] at h
  by_cases h1 : c.row_idx < 0
  · rw [if_pos h1] at h
    exact absurd h (by simp)
  · rw [if_neg h1] at h
    by_cases h2 : c.col_idx < 0
    · rw [if_pos h2] at h
      exact absurd h (by simp)
    · rw [if_neg h2] at h
      have h3 := Option.some.inj h
      subst h3
      exact ⟨rfl, rfl⟩

/-- When every cell of a list converts, the converted list has the same
length and the same row and column index sequences. -/
theorem filterMap_normalize_cells_shape (l : List TableCell)
    (h : ∀ c ∈ l, (normalize_table_cell c).isSome = true) :
    (l.filterMap normalize_table_cell).length = l.length ∧
    (l.filterMap normalize_table_cell).map (fun c => c.row_idx)
      = l.map (fun c => c.row_idx) ∧
    (l.filterMap normalize_table_cell).map (fun c => c.col_idx)
      = l.map (fun c => c.col_idx) := by
  induction l with
  | nil => simp
  | cons x xs ih =>
    have hx := h x (by simp)
    obtain ⟨c', hc'⟩ := Option.isSome_iff_exists.mp hx
    have hxs := ih (fun c hc => h c (by simp [hc]))
    have hrc := normalize_table_cell_indices x c' hc'
    simp only [List.filterMap_cons, hc', List.length_cons, List.map_cons]
    exact ⟨by simp [hxs.1], by simp [hrc.1, hxs.2.1], by simp [hrc.2, hxs.2.2]⟩

/-- table_count of the table metrics is always the number of tables. -/
theorem table_metrics_count (tables : List Table) :
    (calculate_table_metrics tables).table_count = tables.length := by
  unfold calculate_table_metrics
  cases h : tables.isEmpty
  · simp [h]
  · simp [List.isEmpty_iff.mp h]

/-- text_block_count of the text metrics is always the number of blocks. -/
theorem text_metrics_count (blocks : List TextBlock) :
    (calculate_text_metrics blocks).text_block_count = blocks.length := by
  unfold calculate_text_metrics
  cases h : blocks.isEmpty
  · simp [h]
  · simp [List.isEmpty_iff.mp h]

theorem mem_insert_desc {α β : Type} [LinearOrder β] (key : α → β) (x a : α)
    (l : List α) : a ∈ insert_desc key x l ↔ a = x ∨ a ∈ l := by
  induction l with
  | nil => simp [insert_desc]
  | cons y ys ih =>
    unfold insert_desc
    split_ifs
    · simp only [List.mem_cons, ih]
      tauto
    · simp only [List.mem_cons]

theorem mem_py_sort_desc_aux {α β : Type} [LinearOrder β] (key : α → β)
    (l : List α) : ∀ (acc : List α) (a : α),
    a ∈ l.foldl (fun acc x => insert_desc key x acc) acc ↔ a ∈ acc ∨ a ∈ l := by
  induction l with
  | nil => simp
  | cons x xs ih =>
    intro acc a
    simp only [List.foldl_cons]
    rw [ih]
    rw [mem_insert_desc]
    simp
    tauto

theorem mem_py_sort_desc {α β : Type} [LinearOrder β] (key : α → β)
    (l : List α) (a : α) : a ∈ py_sort_desc key l ↔ a ∈ l := by
  unfold py_sort_desc
  rw [mem_py_sort_desc_aux]
  simp

theorem py_max_mem {α β : Type} [LinearOrder β] (key : α → β) (m : α)
    (l : List α) : py_max key m l = m ∨ py_max key m l ∈ l := by
  induction l generalizing m with
  | nil => simp [py_max]
  | cons x xs ih =>
    unfold py_max
    rcases ih (if key m < key x then x else m) with h | h
    · rw [h]
      split_ifs
      · simp
      · simp
    · simp [h]

theorem py_max_le {α β : Type} [LinearOrder β] (key : α → β) (m : α)
    (l : List α) : ∀ a, a = m ∨ a ∈ l → key a ≤ key (py_max key m l) := by
  induction l generalizing m with
  | nil =>
    intro a ha
    rcases ha with rfl | h
    · simp [py_max]
    · simp at h
  | cons x xs ih =>
    intro a ha
    have hstep : key m ≤ key (if key m < key x then x else m) ∧
        key x ≤ key (if key m < key x then x else m) := by
      split_ifs with h
      · exact ⟨le_of_lt h, le_refl _⟩
      · exact ⟨le_refl _, le_of_not_lt h⟩
    rcases ha with rfl | h
    · exact le_trans hstep.1 (ih _ _ (Or.inl rfl))
    · rcases List.mem_cons.mp h with rfl | h2
      · exact le_trans hstep.2 (ih _ _ (Or.inl rfl))
      · exact ih _ _ (Or.inr h2)

theorem normalize_text_block_quarantine_ext (m : ExtractionMethod)
    (q : List QuarantineEntry) (tb : TextBlock) :
    ∃ d, (normalize_text_block m q tb).2 = q ++ d := by
  unfold normalize_text_block
  dsimp only
  split_ifs
  · exact ⟨[], by simp⟩
  · cases hv : validate_text_block (clean_text tb.text) tb.provenance
    · simp only [hv]
      exact ⟨_, rfl⟩
    · simp only [hv]
      exact ⟨[], by simp⟩

theorem normalize_table_quarantine_ext (m : ExtractionMethod)
    (q : List QuarantineEntry) (t : Table) :
    ∃ d, (normalize_table m q t).2 = q ++ d := by
  unfold normalize_table
  dsimp only
  split_ifs
  · exact ⟨[], by simp⟩
  · exact ⟨[], by simp⟩
  · exact ⟨_, rfl⟩

theorem normalize_key_value_quarantine_ext (m : ExtractionMethod)
    (q : List QuarantineEntry) (kv : KeyValue) :
    ∃ d, (normalize_key_value m q kv).2 = q ++ d := by
  unfold normalize_key_value
  dsimp only
  split_ifs
  · exact ⟨[], by simp⟩
  · cases hv : validate_key_value (clean_text kv.key) (clean_text kv.value) kv.provenance
    · simp only [hv]
      exact ⟨_, rfl⟩
    · simp only [hv]
      exact ⟨[], by simp⟩

theorem normalize_list_quarantine_ext {α β : Type}
    (f : List QuarantineEntry → α → Option β × List QuarantineEntry)
    (hf : ∀ q x, ∃ d, (f q x).2 = q ++ d) :
    ∀ (items : List α) (q : List QuarantineEntry),
      ∃ d, (normalize_list f q items).2 = q ++ d := by
  intro items
  induction items with
  | nil => intro q; exact ⟨[], by simp [normalize_list]⟩
  | cons x xs ih =>
    intro q
    obtain ⟨d1, hd1⟩ := hf q x
    obtain ⟨d2, hd2⟩ := ih (f q x).2
    refine ⟨d1 ++ d2, ?_⟩
    unfold normalize_list
    rw [hd2, hd1, List.append_assoc]

theorem apply_normalization_rules_quarantine_ext (m : ExtractionMethod)
    (q : List QuarantineEntry) (d : Document) :
    ∃ e, (apply_normalization_rules m q d).2 = q ++ e := by
  unfold apply_normalization_rules
  obtain ⟨e1, he1⟩ := normalize_list_quarantine_ext _
    (normalize_text_block_quarantine_ext m) d.text_blocks q
  obtain ⟨e2, he2⟩ := normalize_list_quarantine_ext _
    (normalize_table_quarantine_ext m) d.tables
    (normalize_list (normalize_text_block m) q d.text_blocks).2
  obtain ⟨e3, he3⟩ := normalize_list_quarantine_ext _
    (normalize_key_value_quarantine_ext m) d.key_values
    (normalize_list (normalize_table m)
      (normalize_list (normalize_text_block m) q d.text_blocks).2 d.tables).2
  refine ⟨e1 ++ (e2 ++ e3), ?_⟩
  simp only []
  rw [he3, he2, he1]
  simp [List.append_assoc]

/-! ### Claim theorems -/

/-- C8: bbox conversion accepts exactly the three key shapes, in order —
corner form x0/y0/x1/y1, LTRB form mapped to x0=left, y0=top, x1=right,
y1=bottom, and origin-extent form mapped to x0=x, y0=y, x1=x+width,
y1=y+height — and returns None (it is a total function into Option, never
raising) for every dictionary matching none of the shapes.  The accepted
shapes produce the corner construction, which is subject to the BoundingBox
degeneracy validation. -/
theorem bbox_dict_shape_contract :
    (∀ (d : List (String × ℚ)) (a b c e : ℚ),
        d.lookup "x0" = some a → d.lookup "y0" = some b →
        d.lookup "x1" = some c → d.lookup "y1" = some e →
        create_bbox_from_dict d = (validate_bounding_box a b c e).toOption)
    ∧ (∀ (d : List (String × ℚ)) (l t r bo : ℚ),
        (d.lookup "x0" = none ∨ d.lookup "y0" = none ∨
         d.lookup "x1" = none ∨ d.lookup "y1" = none) →
        d.lookup "left" = some l → d.lookup "top" = some t →
        d.lookup "right" = some r → d.lookup "bottom" = some bo →
        create_bbox_from_dict d = (validate_bounding_box l t r bo).toOption)
    ∧ (∀ (d : List (String × ℚ)) (x y w h : ℚ),
        (d.lookup "x0" = none ∨ d.lookup "y0" = none ∨
         d.lookup "x1" = none ∨ d.lookup "y1" = none) →
        (d.lookup "left" = none ∨ d.lookup "top" = none ∨
         d.lookup "right" = none ∨ d.lookup "bottom" = none) →
        d.lookup "x" = some x → d.lookup "y" = some y →
        d.lookup "width" = some w → d.lookup "height" = some h →
        create_bbox_from_dict d =
          (validate_bounding_box x y (x + w) (y + h)).toOption)
    ∧ (∀ (d : List (String × ℚ)),
        (d.lookup "x0" = none ∨ d.lookup "y0" = none ∨
         d.lookup "x1" = none ∨ d.lookup "y1" = none) →
        (d.lookup "left" = none ∨ d.lookup "top" = none ∨
         d.lookup "right" = none ∨ d.lookup "bottom" = none) →
        (d.lookup "x" = none ∨ d.lookup "y" = none ∨
         d.lookup "width" = none ∨ d.lookup "height" = none) →
        create_bbox_from_dict d = none) := by
  refine ⟨?_, ?_, ?_, ?_⟩
  · intro d a b c e h1 h2 h3 h4
    simp [create_bbox_from_dict, bbox_get, h1, h2, h3, h4]
  · intro d l t r bo h0 h1 h2 h3 h4
    rcases h0 with h | h | h | h <;>
      simp [create_bbox_from_dict, bbox_get, h, h1, h2, h3, h4]
  · intro d x y w h h0 h5 h1 h2 h3 h4
    rcases h0 with ha | ha | ha | ha <;> rcases h5 with hb | hb | hb | hb <;>
      simp [create_bbox_from_dict, bbox_get, ha, hb, h1, h2, h3, h4]
  · intro d h0 h5 h6
    rcases h0 with ha | ha | ha | ha <;> rcases h5 with hb | hb | hb | hb <;>
      rcases h6 with hc | hc | hc | hc <;>
      simp [create_bbox_from_dict, bbox_get, ha, hb, hc]

/-- C8 witness: the corner shape at a concrete dictionary. -/
theorem bbox_dict_shape_contract_witness :
    create_bbox_from_dict [("x0", 0), ("y0", 0), ("x1", 2), ("y1", 3)] =
      (validate_bounding_box 0 0 2 3).toOption :=
  bbox_dict_shape_contract.1 [("x0", 0), ("y0", 0), ("x1", 2), ("y1", 3)]
    0 0 2 3 rfl rfl rfl rfl

/-- C2 counterexample: with method AWS_TEXTRACT and v = 1 (already in
[0,1]), normalize_confidence maps 1 to 1/100 and 1/100 to 1/10000, so
normalize_confidence(normalize_confidence(v, m), m) differs from
normalize_confidence(v, m): confidence normalization is not idempotent. -/
theorem normalize_confidence_not_idempotent :
    0 ≤ (1 : ℚ) ∧ (1 : ℚ) ≤ 1 ∧
    normalize_confidence (some 1) ExtractionMethod.AWS_TEXTRACT =
      Except.ok (some (1/100)) ∧
    normalize_confidence (some (1/100)) ExtractionMethod.AWS_TEXTRACT =
      Except.ok (some (1/10000)) ∧
    (1 : ℚ)/10000 ≠ (1 : ℚ)/100 := by
  refine ⟨by norm_num, by norm_num, ?_, ?_, by norm_num⟩
  · norm_num [normalize_confidence]
  · norm_num [normalize_confidence]

/-- C2 amended: for v in [0,1], AWS_TEXTRACT normalization divides by 100,
so renormalizing divides by 100 again and idempotence holds only at v = 0;
for every other method the call raises AttributeError, because the source
references enum members (GOOGLE_DOCAI_OCR and friends) that the
ExtractionMethod enum does not define. -/
theorem normalize_confidence_textract_scaling (v : ℚ) (h0 : 0 ≤ v) (h1 : v ≤ 1) :
    normalize_confidence (some v) ExtractionMethod.AWS_TEXTRACT =
      Except.ok (some (v/100))
    ∧ normalize_confidence (some (v/100)) ExtractionMethod.AWS_TEXTRACT =
      Except.ok (some (v/10000))
    ∧ (v/10000 = v/100 ↔ v = 0)
    ∧ (∀ m : ExtractionMethod, m ≠ ExtractionMethod.AWS_TEXTRACT →
        normalize_confidence (some v) m =
          Except.error "AttributeError: GOOGLE_DOCAI_OCR is not a member of ExtractionMethod") := by
  refine ⟨?_, ?_, ?_, ?_⟩
  · unfold normalize_confidence
    dsimp only
    rw [if_pos rfl, if_pos ⟨h0, by linarith⟩]
  · unfold normalize_confidence
    dsimp only
    rw [if_pos rfl, if_pos ⟨by positivity, by linarith⟩]
    have hv : v/100/100 = v/10000 := by ring
    rw [hv]
  · constructor
    · intro h
      rw [div_eq_div_iff (by norm_num) (by norm_num)] at h
      linarith
    · intro h
      rw [h]
      norm_num
  · intro m hm
    cases m <;> first
      | exact absurd rfl hm
      | (unfold normalize_confidence; dsimp only; rw [if_neg (by simp)])

/-- C2 witness: the amended theorem instantiated at v = 1/2. -/
theorem normalize_confidence_textract_scaling_witness :
    normalize_confidence (some (1/2)) ExtractionMethod.AWS_TEXTRACT =
      Except.ok (some ((1/2 : ℚ)/100))
    ∧ normalize_confidence (some ((1/2 : ℚ)/100)) ExtractionMethod.AWS_TEXTRACT =
      Except.ok (some ((1/2 : ℚ)/10000))
    ∧ ((1/2 : ℚ)/10000 = (1/2 : ℚ)/100 ↔ (1/2 : ℚ) = 0)
    ∧ (∀ m : ExtractionMethod, m ≠ ExtractionMethod.AWS_TEXTRACT →
        normalize_confidence (some (1/2)) m =
          Except.error "AttributeError: GOOGLE_DOCAI_OCR is not a member of ExtractionMethod") :=
  normalize_confidence_textract_scaling (1/2) (by norm_num) (by norm_num)

/-- C9: when success is False or the raw result is not a Document, the
normalizer wraps a freshly constructed unknown Document (id "unknown",
file_name "unknown", page_count 1, empty content and metadata), discarding
whatever Document the adapter returned, and touches no quarantine state. -/
theorem failed_normalization_discards_document (q : List QuarantineEntry)
    (raw : Option Document) (m : ExtractionMethod) (pt : ℚ) (succ : Bool)
    (err : Option String) (h : succ = false ∨ raw = none) :
    (normalize_extraction_result q raw m pt succ err).1.document = unknown_document
    ∧ (normalize_extraction_result q raw m pt succ err).2 = q := by
  unfold normalize_extraction_result
  rcases h with rfl | rfl
  · cases raw <;> simp
  · cases succ <;> simp

/-- C9 witness: a failed extraction whose raw result is a rich Document is
still replaced by the unknown Document. -/
theorem failed_normalization_discards_document_witness :
    (normalize_extraction_result [] (some rich_document) ExtractionMethod.TABULA
        1 false (some "boom")).1.document = unknown_document
    ∧ (normalize_extraction_result [] (some rich_document) ExtractionMethod.TABULA
        1 false (some "boom")).2 = [] :=
  failed_normalization_discards_document [] (some rich_document)
    ExtractionMethod.TABULA 1 false (some "boom") (Or.inl rfl)

/-- C10: the quarantine list only grows during a normalization call (the new
state is the old state plus a suffix of appended entries), clear_quarantine
is the only operation that empties it, and get_quarantine_entries returns
exactly the current entries (the source returns a copy, so mutation of the
returned Python list cannot touch the instance state, which is what makes
this pure state-passing model faithful). -/
theorem quarantine_accumulation :
    (∀ (q : List QuarantineEntry) (raw : Option Document)
        (m : ExtractionMethod) (pt : ℚ) (succ : Bool) (err : Option String),
      ∃ d, (normalize_extraction_result q raw m pt succ err).2 = q ++ d)
    ∧ (∀ q : List QuarantineEntry, clear_quarantine q = [])
    ∧ (∀ q : List QuarantineEntry, get_quarantine_entries q = q) := by
  refine ⟨?_, fun q => rfl, fun q => rfl⟩
  intro q raw m pt succ err
  unfold normalize_extraction_result
  cases succ
  · exact ⟨[], by simp⟩
  · cases raw with
    | none => exact ⟨[], by simp⟩
    | some d =>
      obtain ⟨e, he⟩ := apply_normalization_rules_quarantine_ext m q d
      exact ⟨e, by simp [he]⟩

/-- C3 counterexample: in the table holding one good cell and one cell whose
conversion throws (row_idx = -1 violates the pydantic bound), the failing
cell is discarded but the quarantine stays empty — no QuarantineEntry with
the exception message is appended, and accepted (1) plus quarantined (0)
does not account for the 2 input cells. -/
theorem table_cell_failure_not_quarantined :
    normalize_table_cell bad_cell = none ∧
    mixed_cells_table.cells.length = 2 ∧
    Option.map (fun t => t.cells.length)
      (normalize_table ExtractionMethod.PDFPLUMBER [] mixed_cells_table).1 = some 1 ∧
    (normalize_table ExtractionMethod.PDFPLUMBER [] mixed_cells_table).2 = [] := by
  refine ⟨by decide, by decide, ?_, ?_⟩ <;>
  · simp only [normalize_table, validate_table_structure_eq_int]
    decide

/-- C3 amended: a table cell whose conversion throws is discarded silently —
the only quarantine entry table normalization can ever add is the
table-level "Invalid table structure" entry, never a per-cell entry — so the
quarantine-completeness equation fails for table cells (concretely: 2 input
cells, 1 accepted, 0 quarantined). -/
theorem table_cell_failure_dropped_silently :
    (∀ (m : ExtractionMethod) (q : List QuarantineEntry) (t : Table),
      (normalize_table m q t).2 = q ∨
      (normalize_table m q t).2 =
        quarantine_data q (QuarantineSource.from_table t) m "Invalid table structure")
    ∧ normalize_table_cell bad_cell = none
    ∧ Option.map (fun t => t.cells.length)
        (normalize_table ExtractionMethod.PDFPLUMBER [] mixed_cells_table).1 = some 1
    ∧ (normalize_table ExtractionMethod.PDFPLUMBER [] mixed_cells_table).2.length = 0 := by
  refine ⟨?_, by decide, ?_, ?_⟩
  · intro m q t
    unfold normalize_table
    dsimp only
    split_ifs
    · exact Or.inl rfl
    · exact Or.inl rfl
    · exact Or.inr rfl
  · simp only [normalize_table, validate_table_structure_eq_int]
    decide
  · simp only [normalize_table, validate_table_structure_eq_int]
    decide

/-- C4 counterexample: the boundary table with max_row = max_col = 3 (16
expected cells) and exactly 8 populated cells is ACCEPTED, not rejected —
8 < 16 * 0.5 is false under the strict comparison — and nothing is
quarantined. -/
theorem sparsity_boundary_accepted :
    boundary_table.cells.length = 8 ∧
    table_rows boundary_table = 4 ∧
    table_cols boundary_table = 4 ∧
    (normalize_table ExtractionMethod.PDFPLUMBER [] boundary_table).1.isSome = true ∧
    (normalize_table ExtractionMethod.PDFPLUMBER [] boundary_table).2 = [] := by
  refine ⟨by decide, by decide, by decide, ?_, ?_⟩ <;>
  · simp only [normalize_table, validate_table_structure_eq_int]
    decide

/-- C4 amended: for a table with a non-empty cell list all of whose cells
convert successfully, normalization rejects it (returns None and quarantines
it with reason "Invalid table structure") exactly when
actual_cells < 0.5 * expected_cells with strict inequality, so a table at
exactly 50 percent density is accepted. -/
theorem sparsity_threshold_strict (m : ExtractionMethod)
    (q : List QuarantineEntry) (t : Table) (h1 : t.cells ≠ [])
    (h2 : ∀ c ∈ t.cells, (normalize_table_cell c).isSome = true) :
    (2 * (t.cells.length : Int) < expected_cells_of t.cells →
      normalize_table m q t =
        (none, quarantine_data q (QuarantineSource.from_table t) m
          "Invalid table structure"))
    ∧ (expected_cells_of t.cells ≤ 2 * (t.cells.length : Int) →
      normalize_table m q t =
        (some { cells := t.cells.filterMap normalize_table_cell
                table_id := t.table_id
                caption := t.caption
                provenance := t.provenance }, q)) := by
  obtain ⟨hlen, hrow, hcol⟩ := filterMap_normalize_cells_shape t.cells h2
  have hne : (t.cells.filterMap normalize_table_cell).isEmpty = false := by
    cases h : (t.cells.filterMap normalize_table_cell).isEmpty
    · rfl
    · exfalso
      have h0 := List.isEmpty_iff.mp h
      rw [h0] at hlen
      exact h1 (List.length_eq_zero.mp hlen.symm)
  have hexp : expected_cells_of (t.cells.filterMap normalize_table_cell)
      = expected_cells_of t.cells := by
    unfold expected_cells_of
    rw [hrow, hcol]
  constructor
  · intro hlt
    have hd : decide (expected_cells_of (t.cells.filterMap normalize_table_cell) ≤
        2 * ((t.cells.filterMap normalize_table_cell).length : Int)) = false := by
      rw [hexp, hlen]
      exact decide_eq_false (by omega)
    unfold normalize_table
    dsimp only
    rw [if_neg (by simp [hne]), if_neg (by simp [validate_table_structure_eq_int, hne, hd])]
  · intro hle
    have hd : decide (expected_cells_of (t.cells.filterMap normalize_table_cell) ≤
        2 * ((t.cells.filterMap normalize_table_cell).length : Int)) = true := by
      rw [hexp, hlen]
      exact decide_eq_true hle
    unfold normalize_table
    dsimp only
    rw [if_neg (by simp [hne]), if_pos (by simp [validate_table_structure_eq_int, hne, hd])]

/-- C4 witness: a 2-of-16 table is rejected and quarantined with reason
"Invalid table structure". -/
theorem sparsity_threshold_strict_witness :
    normalize_table ExtractionMethod.PDFPLUMBER [] sparse_table =
      (none, quarantine_data [] (QuarantineSource.from_table sparse_table)
        ExtractionMethod.PDFPLUMBER "Invalid table structure") :=
  (sparsity_threshold_strict ExtractionMethod.PDFPLUMBER [] sparse_table
    (by decide) (by decide)).1 (by decide)

/-! ### Scoring evaluation lemmas for the concrete scenarios -/

theorem readable_hello : is_readable_text "Hello world" = true := by
  unfold is_readable_text
  rw [if_neg (by decide)]
  rw [decide_eq_true_eq]
  have h1 : ("Hello world".toList.filter Char.isAlpha).length = 10 := by decide
  have h2 : ("Hello world".length) = 11 := by decide
  rw [h1, h2]
  norm_num

theorem table_metrics_one_cell :
    calculate_table_metrics [one_cell_table] =
      { table_count := 1, avg_rows_per_table := 1, avg_cols_per_table := 1,
        header_detection_rate := 0, numeric_cell_parse_rate := 1,
        duplicate_cell_rate := 0, table_completeness_score := 1,
        empty_cell_rate := 0 } := by
  have h5 : is_numeric_text "5" = true := by decide
  have s5 : py_lower (py_strip "5") = "5" := by decide
  unfold calculate_table_metrics
  rw [if_neg (by decide)]
  simp [one_cell_table, table_rows, table_cols, h5, s5, List.filter, List.dedup]

set_option maxHeartbeats 2000000 in
theorem table_metrics_perfect :
    calculate_table_metrics [perfect_table] =
      { table_count := 1, avg_rows_per_table := 2, avg_cols_per_table := 2,
        header_detection_rate := 0, numeric_cell_parse_rate := 1,
        duplicate_cell_rate := 0, table_completeness_score := 1,
        empty_cell_rate := 0 } := by
  have h1 : is_numeric_text "1" = true := by decide
  have h2 : is_numeric_text "2" = true := by decide
  have h3 : is_numeric_text "3" = true := by decide
  have h4 : is_numeric_text "4" = true := by decide
  have t1 : py_lower (py_strip "1") = "1" := by decide
  have t2 : py_lower (py_strip "2") = "2" := by decide
  have t3 : py_lower (py_strip "3") = "3" := by decide
  have t4 : py_lower (py_strip "4") = "4" := by decide
  have hd : (["1", "2", "3", "4"] : List String).dedup = ["1", "2", "3", "4"] := by
    decide
  unfold calculate_table_metrics
  rw [if_neg (by decide)]
  simp [perfect_table, perfect_cell, table_rows, table_cols,
    h1, h2, h3, h4, t1, t2, t3, t4, List.filter_cons, hd]

theorem text_metrics_hello :
    calculate_text_metrics [hello_text_block] =
      { text_block_count := 1, avg_text_length := 11, total_characters := 11,
        readable_text_rate := 1 } := by
  have hl : ("Hello world" : String).length = 11 := by decide
  unfold calculate_text_metrics
  rw [if_neg (by decide)]
  simp [hello_text_block, readable_hello, hl, List.filter]

/-- The same text block carrying a 0.95 confidence, used by the perfect
scenario. -/
theorem text_metrics_hello_conf :
    calculate_text_metrics
        [⟨"Hello world", prov_conf ExtractionMethod.PDFPLUMBER (19/20)⟩] =
      { text_block_count := 1, avg_text_length := 11, total_characters := 11,
        readable_text_rate := 1 } := by
  have hl : ("Hello world" : String).length = 11 := by decide
  unfold calculate_text_metrics
  rw [if_neg (by decide)]
  simp [readable_hello, hl, List.filter]

theorem conf_metrics_none (r : ExtractionResult)
    (h : document_confidences r.document = []) :
    calculate_confidence_metrics r =
      { has_confidence_scores := false, avg_confidence := none,
        min_confidence := none, max_confidence := none,
        low_confidence_rate := 0 } := by
  unfold calculate_confidence_metrics
  rw [h]

theorem table_metrics_nil :
    calculate_table_metrics [] =
      { table_count := 0, avg_rows_per_table := 0, avg_cols_per_table := 0,
        header_detection_rate := 0, numeric_cell_parse_rate := 0,
        duplicate_cell_rate := 0, table_completeness_score := 0,
        empty_cell_rate := 0 } := rfl

theorem text_metrics_nil :
    calculate_text_metrics [] =
      { text_block_count := 0, avg_text_length := 0, total_characters := 0,
        readable_text_rate := 0 } := rfl

/-- Closed form of the overall score: the weights accumulate to exactly 1, so
the division leaves the raw weighted sum. -/
theorem calculate_overall_score_eq (basic : BasicMetrics) (table : TableMetrics)
    (text : TextMetrics) (confidence : ConfidenceMetrics) :
    calculate_overall_score basic table text confidence =
      (if basic.success then (3 : ℚ)/10 else 0)
      + (if table.table_count > 0 then
          ((1 - table.empty_cell_rate) * (3/10) +
           table.numeric_cell_parse_rate * (1/5) +
           table.table_completeness_score * (3/10) +
           (1 - table.duplicate_cell_rate) * (1/5)) * (2/5)
        else 0)
      + (if text.text_block_count > 0 then text.readable_text_rate * (1/5) else 0)
      + (if confidence.has_confidence_scores then
          (match confidence.avg_confidence with
           | some a => if a = 0 then (1 : ℚ)/2 else a
           | none => (1 : ℚ)/2) * (1/10)
        else 0) := by
  unfold calculate_overall_score
  dsimp only
  rw [if_pos (show ((0 : ℚ) + 3/10 + 2/5 + 1/5 + 1/10) > 0 by norm_num)]
  split_ifs <;> ring

theorem conf_metrics_perfect :
    calculate_confidence_metrics perfect_result =
      { has_confidence_scores := true, avg_confidence := some (19/20),
        min_confidence := some (19/20), max_confidence := some (19/20),
        low_confidence_rate := 0 } := by
  have hlist : document_confidences perfect_result.document =
      [19/20, 19/20, 19/20, 19/20, 19/20, 19/20] := by
    simp [document_confidences, table_confidences, perfect_result,
      perfect_table, perfect_cell, prov_conf]
  have hlow : (decide ((19/20 : ℚ) < 4/5)) = false := by
    rw [decide_eq_false_iff_not]
    norm_num
  unfold calculate_confidence_metrics
  rw [hlist]
  simp [hlow, List.filter]
  norm_num

theorem score_empty :
    (score_extraction_result empty_success_result).overall_score = 3/10 := by
  have hconf : calculate_confidence_metrics empty_success_result =
      { has_confidence_scores := false, avg_confidence := none,
        min_confidence := none, max_confidence := none,
        low_confidence_rate := 0 } :=
    conf_metrics_none empty_success_result (by decide)
  show calculate_overall_score (calculate_basic_metrics empty_success_result)
      (calculate_table_metrics empty_success_result.document.tables)
      (calculate_text_metrics empty_success_result.document.text_blocks)
      (calculate_confidence_metrics empty_success_result) = 3/10
  rw [calculate_overall_score_eq, hconf,
    show empty_success_result.document.tables = [] from rfl,
    show empty_success_result.document.text_blocks = [] from rfl,
    table_metrics_nil, text_metrics_nil]
  norm_num [calculate_basic_metrics, empty_success_result]

theorem score_a7 :
    (score_extraction_result result_a7).overall_score = 7/10 := by
  have hconf : calculate_confidence_metrics result_a7 =
      { has_confidence_scores := false, avg_confidence := none,
        min_confidence := none, max_confidence := none,
        low_confidence_rate := 0 } :=
    conf_metrics_none result_a7 (by decide)
  show calculate_overall_score (calculate_basic_metrics result_a7)
      (calculate_table_metrics result_a7.document.tables)
      (calculate_text_metrics result_a7.document.text_blocks)
      (calculate_confidence_metrics result_a7) = 7/10
  rw [calculate_overall_score_eq, hconf,
    show result_a7.document.tables = [one_cell_table] from rfl,
    show result_a7.document.text_blocks = [] from rfl,
    table_metrics_one_cell, text_metrics_nil]
  norm_num [calculate_basic_metrics, result_a7]

theorem score_b7 :
    (score_extraction_result result_b7).overall_score = 9/10 := by
  have hconf : calculate_confidence_metrics result_b7 =
      { has_confidence_scores := false, avg_confidence := none,
        min_confidence := none, max_confidence := none,
        low_confidence_rate := 0 } :=
    conf_metrics_none result_b7 (by decide)
  show calculate_overall_score (calculate_basic_metrics result_b7)
      (calculate_table_metrics result_b7.document.tables)
      (calculate_text_metrics result_b7.document.text_blocks)
      (calculate_confidence_metrics result_b7) = 9/10
  rw [calculate_overall_score_eq, hconf,
    show result_b7.document.tables = [one_cell_table] from rfl,
    show result_b7.document.text_blocks = [hello_text_block] from rfl,
    table_metrics_one_cell, text_metrics_hello]
  norm_num [calculate_basic_metrics, result_b7]

theorem score_c7 :
    (score_extraction_result result_c7).overall_score = 9/10 := by
  have hconf : calculate_confidence_metrics result_c7 =
      { has_confidence_scores := false, avg_confidence := none,
        min_confidence := none, max_confidence := none,
        low_confidence_rate := 0 } :=
    conf_metrics_none result_c7 (by decide)
  show calculate_overall_score (calculate_basic_metrics result_c7)
      (calculate_table_metrics result_c7.document.tables)
      (calculate_text_metrics result_c7.document.text_blocks)
      (calculate_confidence_metrics result_c7) = 9/10
  rw [calculate_overall_score_eq, hconf,
    show result_c7.document.tables = [one_cell_table] from rfl,
    show result_c7.document.text_blocks = [hello_text_block] from rfl,
    table_metrics_one_cell, text_metrics_hello]
  norm_num [calculate_basic_metrics, result_c7]

theorem score_a5 :
    (score_extraction_result result_a5).overall_score = 2/5 := by
  have hconf : calculate_confidence_metrics result_a5 =
      { has_confidence_scores := false, avg_confidence := none,
        min_confidence := none, max_confidence := none,
        low_confidence_rate := 0 } :=
    conf_metrics_none result_a5 (by decide)
  show calculate_overall_score (calculate_basic_metrics result_a5)
      (calculate_table_metrics result_a5.document.tables)
      (calculate_text_metrics result_a5.document.text_blocks)
      (calculate_confidence_metrics result_a5) = 2/5
  rw [calculate_overall_score_eq, hconf,
    show result_a5.document.tables = [one_cell_table] from rfl,
    show result_a5.document.text_blocks = [] from rfl,
    table_metrics_one_cell, text_metrics_nil]
  norm_num [calculate_basic_metrics, result_a5]

theorem score_b5 :
    (score_extraction_result result_b5).overall_score = 7/10 := by
  have hconf : calculate_confidence_metrics result_b5 =
      { has_confidence_scores := false, avg_confidence := none,
        min_confidence := none, max_confidence := none,
        low_confidence_rate := 0 } :=
    conf_metrics_none result_b5 (by decide)
  show calculate_overall_score (calculate_basic_metrics result_b5)
      (calculate_table_metrics result_b5.document.tables)
      (calculate_text_metrics result_b5.document.text_blocks)
      (calculate_confidence_metrics result_b5) = 7/10
  rw [calculate_overall_score_eq, hconf,
    show result_b5.document.tables = [one_cell_table] from rfl,
    show result_b5.document.text_blocks = [] from rfl,
    table_metrics_one_cell, text_metrics_nil]
  norm_num [calculate_basic_metrics, result_b5]

theorem compare_batch7 :
    compare_extraction_results [result_a7, result_b7, result_c7] =
      some batch7_output := by
  have kA : (make_scored result_a7).scores.overall_score = 7/10 := score_a7
  have kB : (make_scored result_b7).scores.overall_score = 9/10 := score_b7
  have kC : (make_scored result_c7).scores.overall_score = 9/10 := score_c7
  have i1 : insert_desc (fun sr => sr.scores.overall_score)
      (make_scored result_b7) [make_scored result_a7] =
      [make_scored result_b7, make_scored result_a7] := by
    unfold insert_desc
    rw [if_neg (by simp only [kA, kB]; norm_num)]
  have i2a : insert_desc (fun sr => sr.scores.overall_score)
      (make_scored result_c7) [make_scored result_a7] =
      [make_scored result_c7, make_scored result_a7] := by
    unfold insert_desc
    rw [if_neg (by simp only [kA, kC]; norm_num)]
  have i2 : insert_desc (fun sr => sr.scores.overall_score)
      (make_scored result_c7)
      [make_scored result_b7, make_scored result_a7] =
      [make_scored result_b7, make_scored result_c7, make_scored result_a7] := by
    unfold insert_desc
    rw [if_pos (by simp only [kB, kC]; norm_num)]
    rw [show insert_desc (fun sr => sr.scores.overall_score)
      (make_scored result_c7) [make_scored result_a7] =
      [make_scored result_c7, make_scored result_a7] from i2a]
  have hsort : py_sort_desc (fun sr => sr.scores.overall_score)
      ([result_a7, result_b7, result_c7].map make_scored) =
      [make_scored result_b7, make_scored result_c7, make_scored result_a7] := by
    unfold py_sort_desc
    simp only [List.map_cons, List.map_nil, List.foldl_cons, List.foldl_nil]
    rw [show insert_desc (fun sr => sr.scores.overall_score)
      (make_scored result_a7) [] = [make_scored result_a7] from rfl, i1, i2]
  have tA : (make_scored result_a7).scores.table_metrics.table_count = 1 := by
    show (calculate_table_metrics result_a7.document.tables).table_count = 1
    rw [table_metrics_count]
    rfl
  have tB : (make_scored result_b7).scores.table_metrics.table_count = 1 := by
    show (calculate_table_metrics result_b7.document.tables).table_count = 1
    rw [table_metrics_count]
    rfl
  have tC : (make_scored result_c7).scores.table_metrics.table_count = 1 := by
    show (calculate_table_metrics result_c7.document.tables).table_count = 1
    rw [table_metrics_count]
    rfl
  have xA : (make_scored result_a7).scores.text_metrics.text_block_count = 0 := by
    show (calculate_text_metrics result_a7.document.text_blocks).text_block_count = 0
    rw [text_metrics_count]
    rfl
  have xB : (make_scored result_b7).scores.text_metrics.text_block_count = 1 := by
    show (calculate_text_metrics result_b7.document.text_blocks).text_block_count = 1
    rw [text_metrics_count]
    rfl
  have xC : (make_scored result_c7).scores.text_metrics.text_block_count = 1 := by
    show (calculate_text_metrics result_c7.document.text_blocks).text_block_count = 1
    rw [text_metrics_count]
    rfl
  have m1 : py_max (fun sr => sr.scores.table_metrics.table_count)
      (make_scored result_b7) [make_scored result_c7, make_scored result_a7] =
      make_scored result_b7 := by
    unfold py_max
    rw [if_neg (by simp only [tB, tC]; norm_num)]
    unfold py_max
    rw [if_neg (by simp only [tA, tB]; norm_num)]
    unfold py_max
    rfl
  have m2 : py_max (fun sr => sr.scores.text_metrics.text_block_count)
      (make_scored result_b7) [make_scored result_c7, make_scored result_a7] =
      make_scored result_b7 := by
    unfold py_max
    rw [if_neg (by simp only [xB, xC]; norm_num)]
    unfold py_max
    rw [if_neg (by simp only [xA, xB]; norm_num)]
    unfold py_max
    rfl
  unfold compare_extraction_results
  rw [hsort]
  dsimp only
  rw [m1, m2]
  rfl

theorem compare_batch5 :
    compare_extraction_results [result_a5, result_b5] = some batch5_output := by
  have kA : (make_scored result_a5).scores.overall_score = 2/5 := score_a5
  have kB : (make_scored result_b5).scores.overall_score = 7/10 := score_b5
  have i1 : insert_desc (fun sr => sr.scores.overall_score)
      (make_scored result_b5) [make_scored result_a5] =
      [make_scored result_b5, make_scored result_a5] := by
    unfold insert_desc
    rw [if_neg (by simp only [kA, kB]; norm_num)]
  have hsort : py_sort_desc (fun sr => sr.scores.overall_score)
      ([result_a5, result_b5].map make_scored) =
      [make_scored result_b5, make_scored result_a5] := by
    unfold py_sort_desc
    simp only [List.map_cons, List.map_nil, List.foldl_cons, List.foldl_nil]
    rw [show insert_desc (fun sr => sr.scores.overall_score)
      (make_scored result_a5) [] = [make_scored result_a5] from rfl, i1]
  have tA : (make_scored result_a5).scores.table_metrics.table_count = 1 := by
    show (calculate_table_metrics result_a5.document.tables).table_count = 1
    rw [table_metrics_count]
    rfl
  have tB : (make_scored result_b5).scores.table_metrics.table_count = 1 := by
    show (calculate_table_metrics result_b5.document.tables).table_count = 1
    rw [table_metrics_count]
    rfl
  have xA : (make_scored result_a5).scores.text_metrics.text_block_count = 0 := by
    show (calculate_text_metrics result_a5.document.text_blocks).text_block_count = 0
    rw [text_metrics_count]
    rfl
  have xB : (make_scored result_b5).scores.text_metrics.text_block_count = 0 := by
    show (calculate_text_metrics result_b5.document.text_blocks).text_block_count = 0
    rw [text_metrics_count]
    rfl
  have m1 : py_max (fun sr => sr.scores.table_metrics.table_count)
      (make_scored result_b5) [make_scored result_a5] = make_scored result_b5 := by
    unfold py_max
    rw [if_neg (by simp only [tA, tB]; norm_num)]
    unfold py_max
    rfl
  have m2 : py_max (fun sr => sr.scores.text_metrics.text_block_count)
      (make_scored result_b5) [make_scored result_a5] = make_scored result_b5 := by
    unfold py_max
    rw [if_neg (by simp only [xA, xB]; norm_num)]
    unfold py_max
    rfl
  unfold compare_extraction_results
  rw [hsort]
  dsimp only
  rw [m1, m2]
  rfl

/-- C1 counterexample: for the Document with success=True, no tables, no
text blocks, no key-values and no confidence scores, score_extraction_result
returns overall_score 0.3, not the claimed 0.3/0.3 = 1.0 — the weight sum in
the denominator is accumulated unconditionally, so absent components are
still counted in it. -/
theorem empty_extraction_not_full_score :
    (score_extraction_result empty_success_result).overall_score = 3/10 ∧
    ¬((score_extraction_result empty_success_result).overall_score = 1) :=
  ⟨score_empty, by rw [score_empty]; norm_num⟩

/-- C1 amended: the overall quality score equals the accumulated weighted sum
divided by the CONSTANT total weight 0.3 + 0.4 + 0.2 + 0.1 = 1.0 — every
`weight_sum +=` in the source sits outside its component's `if`, so weights of
absent components are never excluded from the denominator; in particular the
empty successful Document scores 0.3/1.0 = 0.3. -/
theorem overall_score_fixed_denominator :
    (∀ r : ExtractionResult,
      (score_extraction_result r).overall_score =
        spec_fixed_denominator_overall (calculate_basic_metrics r)
          (calculate_table_metrics r.document.tables)
          (calculate_text_metrics r.document.text_blocks)
          (calculate_confidence_metrics r))
    ∧ (score_extraction_result empty_success_result).overall_score = 3/10 := by
  constructor
  · intro r
    show calculate_overall_score (calculate_basic_metrics r)
      (calculate_table_metrics r.document.tables)
      (calculate_text_metrics r.document.text_blocks)
      (calculate_confidence_metrics r) = _
    rw [calculate_overall_score_eq]
    unfold spec_fixed_denominator_overall
    rw [show ((3 : ℚ)/10 + 2/5 + 1/5 + 1/10) = 1 from by norm_num, div_one]
  · exact score_empty

/-- C6: the §8 perfect-extraction Document — one 2 by 2 table whose four
cells are non-empty, pairwise distinct, plausibly numeric and parsed, one
readable text block, success=True, confidence 0.95 = 19/20 on every datum —
scores exactly 0.995 = 199/200, matching
0.3 + 0.4*(0.3*1 + 0.2*1 + 0.3*1 + 0.2*1) + 0.2*1 + 0.1*0.95. -/
theorem perfect_extraction_golden_score :
    (score_extraction_result perfect_result).overall_score = 199/200 ∧
    (199/200 : ℚ) =
      3/10 + (2/5) * ((3/10) * 1 + (1/5) * 1 + (3/10) * 1 + (1/5) * 1)
        + (1/5) * 1 + (1/10) * (19/20) := by
  constructor
  · show calculate_overall_score (calculate_basic_metrics perfect_result)
      (calculate_table_metrics perfect_result.document.tables)
      (calculate_text_metrics perfect_result.document.text_blocks)
      (calculate_confidence_metrics perfect_result) = 199/200
    rw [calculate_overall_score_eq, conf_metrics_perfect,
      show perfect_result.document.tables = [perfect_table] from rfl,
      show perfect_result.document.text_blocks =
        [⟨"Hello world", prov_conf ExtractionMethod.PDFPLUMBER (19/20)⟩] from rfl,
      table_metrics_perfect, text_metrics_hello_conf]
    norm_num [calculate_basic_metrics, perfect_result]
  · norm_num

/-- C7: method_rankings is the stable descending sort of the batch by
overall score and best_overall is its head; on the §8 batch with scores
[0.7, 0.9, 0.9] for methods [PDFPLUMBER, CAMELOT_LATTICE, CAMELOT_STREAM]
in that input order, the ranking is [CAMELOT_LATTICE, CAMELOT_STREAM,
PDFPLUMBER] — the two 0.9 methods keep their input order — and best_overall
is CAMELOT_LATTICE. -/
theorem comparator_rankings_stable :
    (∀ (rs : List ExtractionResult) (out : CompareOutput),
        compare_extraction_results rs = some out →
        out.method_rankings.head? = some out.best_overall)
    ∧ compare_extraction_results [result_a7, result_b7, result_c7] =
        some batch7_output
    ∧ batch7_output.method_rankings =
        [ExtractionMethod.CAMELOT_LATTICE, ExtractionMethod.CAMELOT_STREAM,
         ExtractionMethod.PDFPLUMBER]
    ∧ batch7_output.best_overall = ExtractionMethod.CAMELOT_LATTICE
    ∧ (score_extraction_result result_a7).overall_score = 7/10
    ∧ (score_extraction_result result_b7).overall_score = 9/10
    ∧ (score_extraction_result result_c7).overall_score = 9/10 := by
  refine ⟨?_, compare_batch7, rfl, rfl, score_a7, score_b7, score_c7⟩
  intro rs out h
  unfold compare_extraction_results at h
  cases hs : py_sort_desc (fun sr => sr.scores.overall_score) (rs.map make_scored) with
  | nil =>
    rw [hs] at h
    exact absurd h (by simp)
  | cons top rest =>
    rw [hs] at h
    dsimp only at h
    have h2 := Option.some.inj h
    rw [← h2]
    simp

/-- C7 witness: the head property applied to the concrete batch. -/
theorem comparator_rankings_stable_witness :
    batch7_output.method_rankings.head? = some batch7_output.best_overall :=
  comparator_rankings_stable.1 [result_a7, result_b7, result_c7] batch7_output
    comparator_rankings_stable.2.1

/-- C5 counterexample: two results with equal table_count 1, the first in
input order (PDFPLUMBER) having the lower overall score; best_tables comes
out as TABULA, the higher-ranked of the tied methods, not the first in input
order as the claim states. -/
theorem best_tables_tie_ignores_input_order :
    (score_extraction_result result_a5).table_metrics.table_count =
      (score_extraction_result result_b5).table_metrics.table_count
    ∧ (score_extraction_result result_a5).overall_score <
        (score_extraction_result result_b5).overall_score
    ∧ compare_extraction_results [result_a5, result_b5] = some batch5_output
    ∧ batch5_output.best_tables = ExtractionMethod.TABULA
    ∧ result_a5.method = ExtractionMethod.PDFPLUMBER
    ∧ ExtractionMethod.TABULA ≠ ExtractionMethod.PDFPLUMBER := by
  refine ⟨?_, ?_, compare_batch5, rfl, rfl, by decide⟩
  · show (calculate_table_metrics result_a5.document.tables).table_count =
        (calculate_table_metrics result_b5.document.tables).table_count
    rw [table_metrics_count, table_metrics_count]
    rfl
  · rw [score_a5, score_b5]
    norm_num

/-- C5 amended: best_tables (and best_text) is a method attaining the
greatest table count (text-block count), but ties are broken by position in
the score-ranked list — max() runs over the already sorted scored_results —
so among tied methods the one ranked higher overall wins, not the first in
input order. -/
theorem best_tables_max_over_ranking :
    (∀ (rs : List ExtractionResult) (out : CompareOutput),
      compare_extraction_results rs = some out →
      (∃ r, r ∈ rs ∧ r.method = out.best_tables ∧
        ∀ r2 ∈ rs, r2.document.tables.length ≤ r.document.tables.length)
      ∧ (∃ r, r ∈ rs ∧ r.method = out.best_text ∧
        ∀ r2 ∈ rs, r2.document.text_blocks.length ≤ r.document.text_blocks.length))
    ∧ compare_extraction_results [result_a5, result_b5] = some batch5_output
    ∧ batch5_output.method_rankings =
        [ExtractionMethod.TABULA, ExtractionMethod.PDFPLUMBER]
    ∧ batch5_output.best_tables = ExtractionMethod.TABULA := by
  refine ⟨?_, compare_batch5, rfl, rfl⟩
  intro rs out h
  unfold compare_extraction_results at h
  cases hs : py_sort_desc (fun sr => sr.scores.overall_score) (rs.map make_scored) with
  | nil =>
    rw [hs] at h
    exact absurd h (by simp)
  | cons top rest =>
    rw [hs] at h
    dsimp only at h
    have h2 := Option.some.inj h
    have key_tab : ∀ r' : ExtractionResult,
        (make_scored r').scores.table_metrics.table_count =
          r'.document.tables.length := by
      intro r'
      show (calculate_table_metrics r'.document.tables).table_count = _
      rw [table_metrics_count]
    have key_txt : ∀ r' : ExtractionResult,
        (make_scored r').scores.text_metrics.text_block_count =
          r'.document.text_blocks.length := by
      intro r'
      show (calculate_text_metrics r'.document.text_blocks).text_block_count = _
      rw [text_metrics_count]
    constructor
    · have hwmem : py_max (fun sr => sr.scores.table_metrics.table_count) top rest
          ∈ top :: rest := by
        rcases py_max_mem (fun sr => sr.scores.table_metrics.table_count) top rest
          with hm | hm
        · rw [hm]
          exact List.mem_cons_self _ _
        · exact List.mem_cons_of_mem _ hm
      have hwmem2 : py_max (fun sr => sr.scores.table_metrics.table_count) top rest
          ∈ rs.map make_scored := by
        rw [← hs] at hwmem
        exact (mem_py_sort_desc _ _ _).mp hwmem
      obtain ⟨r, hr, hrw⟩ := List.mem_map.mp hwmem2
      refine ⟨r, hr, ?_, ?_⟩
      · rw [← h2]
        dsimp only
        rw [← hrw]
        rfl
      · intro r2 hr2
        have hm2 : make_scored r2 ∈ top :: rest := by
          rw [← hs]
          exact (mem_py_sort_desc _ _ _).mpr (List.mem_map_of_mem _ hr2)
        have hle := py_max_le (fun sr => sr.scores.table_metrics.table_count)
          top rest (make_scored r2) (List.mem_cons.mp hm2)
        dsimp only at hle
        rw [← hrw] at hle
        rw [key_tab r2, key_tab r] at hle
        exact hle
    · have hwmem : py_max (fun sr => sr.scores.text_metrics.text_block_count) top rest
          ∈ top :: rest := by
        rcases py_max_mem (fun sr => sr.scores.text_metrics.text_block_count) top rest
          with hm | hm
        · rw [hm]
          exact List.mem_cons_self _ _
        · exact List.mem_cons_of_mem _ hm
      have hwmem2 : py_max (fun sr => sr.scores.text_metrics.text_block_count) top rest
          ∈ rs.map make_scored := by
        rw [← hs] at hwmem
        exact (mem_py_sort_desc _ _ _).mp hwmem
      obtain ⟨r, hr, hrw⟩ := List.mem_map.mp hwmem2
      refine ⟨r, hr, ?_, ?_⟩
      · rw [← h2]
        dsimp only
        rw [← hrw]
        rfl
      · intro r2 hr2
        have hm2 : make_scored r2 ∈ top :: rest := by
          rw [← hs]
          exact (mem_py_sort_desc _ _ _).mpr (List.mem_map_of_mem _ hr2)
        have hle := py_max_le (fun sr => sr.scores.text_metrics.text_block_count)
          top rest (make_scored r2) (List.mem_cons.mp hm2)
        dsimp only at hle
        rw [← hrw] at hle
        rw [key_txt r2, key_txt r] at hle
        exact hle

/-- C5 witness: the max property applied to the concrete tie-break batch. -/
theorem best_tables_max_over_ranking_witness :
    (∃ r, r ∈ [result_a5, result_b5] ∧ r.method = batch5_output.best_tables ∧
      ∀ r2 ∈ [result_a5, result_b5],
        r2.document.tables.length ≤ r.document.tables.length)
    ∧ (∃ r, r ∈ [result_a5, result_b5] ∧ r.method = batch5_output.best_text ∧
      ∀ r2 ∈ [result_a5, result_b5],
        r2.document.text_blocks.length ≤ r.document.text_blocks.length) :=
  best_tables_max_over_ranking.1 [result_a5, result_b5] batch5_output
    best_tables_max_over_ranking.2.1
